import Mathlib

/-!
# OpenTESArena texture manager: cache and palette discipline

A shallow embedding of `src/Media/TextureManager.cpp`.  The manager owns five
string-keyed maps (palettes, surfaces, textures, surface sets, texture sets) and
the name of the active palette.  Every external collaborator (file decoders, SDL,
the renderer, the name tables) is a field of `Env`; every call the manager makes
to a loader or decoder is appended to a call log, so that "no decoder was
invoked" is the statement that the log did not grow.  A process-terminating
diagnostic (`Debug::crash`, a failed `Debug::check`, a failed `assert`, an
exception of `std::map::at`) is the `crash` outcome, which carries the state
reached at the point of failure.
-/

namespace TextureManager

/-! ## Data model -/

/-- A palette: the colour table produced by the palette decoders. -/
abbrev Palette := List Nat

/-- The pixel data behind an `SDL_Surface`. -/
structure SDLSurface where
  width : Int
  height : Int
  pixels : List Nat
deriving DecidableEq, Repr

/-- The pixel data behind an `SDL_Texture`. -/
structure SDLTexture where
  width : Int
  height : Int
  pixels : List Nat
deriving DecidableEq, Repr

/-- The `Surface` class: an owned copy of an optimised `SDL_Surface`. -/
structure Surface where
  sdl : SDLSurface
deriving DecidableEq, Repr

/-- A decoded `IMGFile`. -/
structure IMGFile where
  width : Int
  height : Int
  pixels : List Nat
deriving DecidableEq, Repr

/-- A decoded `SETFile`: its chunk count and the pixels of each chunk. -/
structure SETFile where
  count : Int
  pixels : Nat → List Nat

/-- Calls the manager makes to the palette loader and to the decoders. -/
inductive Call where
  | loadPalette (paletteName : String)
  | colToPalette (colName : String)
  | extractPalette (imgName : String)
  | imgFile (filename : String) (palette : Option Palette)
  | imgLoad (fullPath : String)
  | setFile (filename : String) (palette : Palette)
deriving DecidableEq, Repr

/-- The ways the process can be terminated. -/
inductive Fatal where
  | assertion
  | outOfRange
  | builtInForSet
  | unrecognizedPalette (paletteName : String)
  | unrecognizedImageList (filename : String)
  | couldNotOpen (fullPath : String)
  | couldNotOptimize (fullPath : String)
  | couldNotInitialize
  | decodeFailure (name : String)
  | conversionFailure (name : String)
deriving DecidableEq, Repr

/-- The external collaborators of the manager, none of which is in the sources
at hand.  A decoder returning `none` stands for a decoder that terminated the
process; a pointer-returning SDL call returning `none` stands for `nullptr`. -/
structure Env where
  builtInName : String
  defaultName : String
  getExtension : String → String
  colToPalette : String → Option Palette
  extractPalette : String → Option Palette
  imgFile : String → Option Palette → Option IMGFile
  imgLoad : String → Option SDLSurface
  convertSurface : SDLSurface → Option SDLSurface
  setFile : String → Palette → Option SETFile
  chunkWidth : Int
  chunkHeight : Int
  createTextureFromSurface : Surface → Option SDLTexture
  createTexture : Int → Int → Option SDLTexture
  sequenceNames : List Nat
  fromName : Nat → List String
  imgInit : Bool

/-! ## String-keyed maps with unique keys -/

/-- The lookup `map.find(key)`: the mapped value, or `none` for `end()`. -/
def find {V : Type} : List (String × V) → String → Option V
  | [], _ => none
  | (k, v) :: rest, key => if k = key then some v else find rest key

/-- The insertion `map.emplace(make_pair(key, value))`: nothing is inserted when the key
is already present.  The result is the map together with the value the returned iterator
points at (`.first->second`). -/
def emplace {V : Type} (m : List (String × V)) (key : String) (value : V) :
    List (String × V) × V :=
  match find m key with
  | some existing => (m, existing)
  | none => (m ++ [(key, value)], value)

/-- Appending to the vector stored under `key` (`iter->second.push_back(x)`). -/
def pushBack {V : Type} : List (String × List V) → String → V → List (String × List V)
  | [], _, _ => []
  | (k, v) :: rest, key, x =>
    if k = key then (k, v ++ [x]) :: rest else (k, v) :: pushBack rest key x

/-! ## Manager state and outcomes -/

/-- The fields of the `TextureManager` class. -/
structure State where
  palettes : List (String × Palette)
  surfaces : List (String × Surface)
  textures : List (String × Option SDLTexture)
  surfaceSets : List (String × List (Option SDLSurface))
  textureSets : List (String × List (Option SDLTexture))
  activePalette : String
deriving DecidableEq, Repr

/-- The manager together with the log of loader and decoder calls made so far. -/
structure World where
  tm : State
  calls : List Call
deriving DecidableEq, Repr

/-- Records one call in the log. -/
def World.log (w : World) (c : Call) : World :=
  { w with calls := w.calls ++ [c] }

/-- The result of running an operation: it returns, or the process is terminated. -/
inductive Outcome (α : Type) where
  | ok (value : α) (w : World)
  | crash (e : Fatal) (w : World)
deriving DecidableEq, Repr

/-- Sequencing: a crash stops everything that follows. -/
def Outcome.bind {α β : Type} (r : Outcome α) (f : α → World → Outcome β) : Outcome β :=
  match r with
  | .ok a w => f a w
  | .crash e w => .crash e w

/-- The world an outcome ends in. -/
def Outcome.world {α : Type} : Outcome α → World
  | .ok _ w => w
  | .crash _ w => w

/-- Whether the operation returned. -/
def Outcome.isOk {α : Type} : Outcome α → Bool
  | .ok _ _ => true
  | .crash _ _ => false

/-- Modelled from the spec: `Debug::check(condition, ...)` of `Utilities/Debug.h`, which
is not among the sources; a check that does not hold is a fatal failure with a diagnostic
(spec sections 4.5 and 7). -/
def check (condition : Bool) (e : Fatal) (w : World) : Outcome Unit :=
  if condition then .ok () w else .crash e w

/-- The cache key `filename + paletteName`. -/
def fullName (filename paletteName : String) : String :=
  filename ++ paletteName

/-- The constant `TextureManager::PATH`. -/
def PATH : String := "data/textures/"

/-! ## Operations -/

/-- The method `TextureManager::loadPNG`. -/
def loadPNG (env : Env) (fullPath : String) (w : World) : Outcome SDLSurface :=
  let w1 := w.log (.imgLoad fullPath)
  match env.imgLoad fullPath with
  | none => .crash (.couldNotOpen fullPath) w1
  | some unOptSurface =>
    match env.convertSurface unOptSurface with
    | none => .crash (.couldNotOptimize fullPath) w1
    | some optSurface => .ok optSurface w1

/-- The method `TextureManager::loadCOLPalette`. -/
def loadCOLPalette (env : Env) (colName : String) (w : World) : Outcome Unit :=
  let w1 := w.log (.colToPalette colName)
  match env.colToPalette colName with
  | none => .crash (.decodeFailure colName) w1
  | some dstPalette =>
    .ok () { w1 with tm := { w1.tm with palettes := (emplace w1.tm.palettes colName dstPalette).1 } }

/-- The method `TextureManager::loadIMGPalette`. -/
def loadIMGPalette (env : Env) (imgName : String) (w : World) : Outcome Unit :=
  let w1 := w.log (.extractPalette imgName)
  match env.extractPalette imgName with
  | none => .crash (.decodeFailure imgName) w1
  | some dstPalette =>
    .ok () { w1 with tm := { w1.tm with palettes := (emplace w1.tm.palettes imgName dstPalette).1 } }

/-- The method `TextureManager::loadPalette`. -/
def loadPalette (env : Env) (paletteName : String) (w : World) : Outcome Unit :=
  let w0 := w.log (.loadPalette paletteName)
  (check (find w0.tm.palettes paletteName).isNone .assertion w0).bind fun _ w1 =>
    let extension := env.getExtension paletteName
    let isCOL := extension == ".COL"
    let isIMG := extension == ".IMG"
    let isMNU := extension == ".MNU"
    (if isCOL then loadCOLPalette env paletteName w1
     else if isIMG || isMNU then loadIMGPalette env paletteName w1
     else .crash (.unrecognizedPalette paletteName) w1).bind fun _ w2 =>
      check (find w2.tm.palettes paletteName).isSome .assertion w2

/-- The method `TextureManager::paletteIsBuiltIn`. -/
def paletteIsBuiltIn (env : Env) (paletteName : String) : Bool :=
  paletteName == env.builtInName

/-- The checked lookup `palettes.at(paletteName)`. -/
def paletteAt (paletteName : String) (w : World) : Outcome Palette :=
  match find w.tm.palettes paletteName with
  | some p => .ok p w
  | none => .crash .outOfRange w

/-- The method `TextureManager::getSurface(filename, paletteName)`.  The unoptimised surface
made by `SDL_CreateRGBSurfaceFrom` is the record of the decoded width, height and pixels;
a null result of `SDL_ConvertSurface` is a fatal format-conversion failure (spec section
4.3), raised when the `Surface` is constructed from it. -/
def getSurface (env : Env) (filename paletteName : String) (w : World) : Outcome Surface :=
  match find w.tm.surfaces (fullName filename paletteName) with
  | some surface => .ok surface w
  | none =>
    let useBuiltInPalette := paletteIsBuiltIn env paletteName
    (if (!useBuiltInPalette && (find w.tm.palettes paletteName).isNone) ||
        (useBuiltInPalette && (find w.tm.palettes filename).isNone)
     then loadPalette env (if useBuiltInPalette then filename else paletteName) w
     else .ok () w).bind fun _ w1 =>
      let extension := env.getExtension filename
      let isIMG := extension == ".IMG"
      let isMNU := extension == ".MNU"
      (if isIMG || isMNU then
        (if useBuiltInPalette then .ok none w1
         else (paletteAt paletteName w1).bind fun p w2 => .ok (some p) w2).bind fun palette w2 =>
          let w3 := w2.log (.imgFile filename palette)
          match env.imgFile filename palette with
          | none => .crash (.decodeFailure filename) w3
          | some img =>
            match env.convertSurface ⟨img.width, img.height, img.pixels⟩ with
            | none => .crash (.conversionFailure filename) w3
            | some optSurface => .ok optSurface w3
       else loadPNG env (PATH ++ filename ++ ".png") w1).bind fun optSurface w4 =>
        let surface : Surface := ⟨optSurface⟩
        let iter := emplace w4.tm.surfaces (fullName filename paletteName) surface
        .ok iter.2 { w4 with tm := { w4.tm with surfaces := iter.1 } }

/-- The method `TextureManager::getSurface(filename)`. -/
def getSurfaceActive (env : Env) (filename : String) (w : World) : Outcome Surface :=
  getSurface env filename w.tm.activePalette w

/-- The method `TextureManager::getTexture(filename, paletteName)`. -/
def getTexture (env : Env) (filename paletteName : String) (w : World) :
    Outcome (Option SDLTexture) :=
  match find w.tm.textures (fullName filename paletteName) with
  | some texture => .ok texture w
  | none =>
    (getSurface env filename paletteName w).bind fun surface w1 =>
      let texture := env.createTextureFromSurface surface
      let iter := emplace w1.tm.textures (fullName filename paletteName) texture
      .ok iter.2 { w1 with tm := { w1.tm with textures := iter.1 } }

/-- The method `TextureManager::getTexture(filename)`. -/
def getTextureActive (env : Env) (filename : String) (w : World) :
    Outcome (Option SDLTexture) :=
  getTexture env filename w.tm.activePalette w

/-- The vector a set-cache iterator refers to. -/
def setAt {V : Type} (m : List (String × List V)) (key : String) : List V :=
  (find m key).getD []

/-- One iteration of the chunk loop of `getSurfaces`. -/
def surfaceStep (env : Env) (setFile : SETFile) (key : String) (w : World) (i : Nat) : World :=
  let pixels := setFile.pixels i
  let optSurface := env.convertSurface ⟨env.chunkWidth, env.chunkHeight, pixels⟩
  { w with tm := { w.tm with surfaceSets := pushBack w.tm.surfaceSets key optSurface } }

/-- The method `TextureManager::getSurfaces(filename, paletteName)`. -/
def getSurfaces (env : Env) (filename paletteName : String) (w : World) :
    Outcome (List (Option SDLSurface)) :=
  match find w.tm.surfaceSets (fullName filename paletteName) with
  | some surfaceSet => .ok surfaceSet w
  | none =>
    (check (!paletteIsBuiltIn env paletteName) .builtInForSet w).bind fun _ w1 =>
      (if (find w1.tm.palettes paletteName).isNone then loadPalette env paletteName w1
       else .ok () w1).bind fun _ w2 =>
        let iter := emplace w2.tm.surfaceSets (fullName filename paletteName) []
        let w3 : World := { w2 with tm := { w2.tm with surfaceSets := iter.1 } }
        (paletteAt paletteName w3).bind fun palette w4 =>
          let isSET := env.getExtension filename == ".SET"
          if isSET then
            let w5 := w4.log (.setFile filename palette)
            match env.setFile filename palette with
            | none => .crash (.decodeFailure filename) w5
            | some setFile =>
              let w6 := (List.range setFile.count.toNat).foldl
                (surfaceStep env setFile (fullName filename paletteName)) w5
              .ok (setAt w6.tm.surfaceSets (fullName filename paletteName)) w6
          else .crash (.unrecognizedImageList filename) w4

/-- The method `TextureManager::getSurfaces(filename)`. -/
def getSurfacesActive (env : Env) (filename : String) (w : World) :
    Outcome (List (Option SDLSurface)) :=
  getSurfaces env filename w.tm.activePalette w

/-- The call `SDL_UpdateTexture(texture, nullptr, pixels, pitch)`. -/
def updateTexture (texture : Option SDLTexture) (pixels : List Nat) : Option SDLTexture :=
  texture.map fun t => { t with pixels := pixels }

/-- One iteration of the chunk loop of `getTextures`. -/
def textureStep (env : Env) (setFile : SETFile) (key : String) (w : World) (i : Nat) : World :=
  let texture := env.createTexture env.chunkWidth env.chunkHeight
  let pixels := setFile.pixels i
  { w with tm := { w.tm with
      textureSets := pushBack w.tm.textureSets key (updateTexture texture pixels) } }

/-- The method `TextureManager::getTextures(filename, paletteName)`. -/
def getTextures (env : Env) (filename paletteName : String) (w : World) :
    Outcome (List (Option SDLTexture)) :=
  match find w.tm.textureSets (fullName filename paletteName) with
  | some textureSet => .ok textureSet w
  | none =>
    (check (!paletteIsBuiltIn env paletteName) .builtInForSet w).bind fun _ w1 =>
      (if (find w1.tm.palettes paletteName).isNone then loadPalette env paletteName w1
       else .ok () w1).bind fun _ w2 =>
        let iter := emplace w2.tm.textureSets (fullName filename paletteName) []
        let w3 : World := { w2 with tm := { w2.tm with textureSets := iter.1 } }
        (paletteAt paletteName w3).bind fun palette w4 =>
          let isSET := env.getExtension filename == ".SET"
          if isSET then
            let w5 := w4.log (.setFile filename palette)
            match env.setFile filename palette with
            | none => .crash (.decodeFailure filename) w5
            | some setFile =>
              let w6 := (List.range setFile.count.toNat).foldl
                (textureStep env setFile (fullName filename paletteName)) w5
              .ok (setAt w6.tm.textureSets (fullName filename paletteName)) w6
          else .crash (.unrecognizedImageList filename) w4

/-- The method `TextureManager::getTextures(filename)`. -/
def getTexturesActive (env : Env) (filename : String) (w : World) :
    Outcome (List (Option SDLTexture)) :=
  getTextures env filename w.tm.activePalette w

/-- The method `TextureManager::setPalette`. -/
def setPalette (env : Env) (paletteName : String) (w : World) : Outcome Unit :=
  (if (find w.tm.palettes paletteName).isNone then loadPalette env paletteName w
   else .ok () w).bind fun _ w1 =>
    .ok () { w1 with tm := { w1.tm with activePalette := paletteName } }

/-- A range-based `for` loop whose body may terminate the process. -/
def forEach {α : Type} (body : α → World → Outcome Unit) : List α → World → Outcome Unit
  | [], w => .ok () w
  | x :: rest, w => (body x w).bind fun _ w1 => forEach body rest w1

/-- The method `TextureManager::preloadSequences`. -/
def preloadSequences (env : Env) (w : World) : Outcome Unit :=
  forEach (fun name w1 =>
    forEach (fun filename w2 => (getTextureActive env filename w2).bind fun _ w3 => .ok () w3)
      (env.fromName name) w1) env.sequenceNames w

/-- The members as the initialiser list of the constructor leaves them. -/
def emptyWorld : World :=
  ⟨⟨[], [], [], [], [], ""⟩, []⟩

/-- The constructor `TextureManager::TextureManager`. -/
def construct (env : Env) : Outcome Unit :=
  (setPalette env env.defaultName emptyWorld).bind fun _ w1 =>
    check env.imgInit .couldNotInitialize w1

/-- The public operations a caller can invoke on a constructed manager. -/
inductive Op where
  | setPalette (paletteName : String)
  | getSurface (filename paletteName : String)
  | getSurfaceActive (filename : String)
  | getTexture (filename paletteName : String)
  | getTextureActive (filename : String)
  | getSurfaces (filename paletteName : String)
  | getSurfacesActive (filename : String)
  | getTextures (filename paletteName : String)
  | getTexturesActive (filename : String)
  | preloadSequences
deriving DecidableEq, Repr

/-- Runs one public operation, discarding the returned reference. -/
def runOp (env : Env) : Op → World → Outcome Unit
  | .setPalette p, w => setPalette env p w
  | .getSurface f p, w => (getSurface env f p w).bind fun _ w1 => .ok () w1
  | .getSurfaceActive f, w => (getSurfaceActive env f w).bind fun _ w1 => .ok () w1
  | .getTexture f p, w => (getTexture env f p w).bind fun _ w1 => .ok () w1
  | .getTextureActive f, w => (getTextureActive env f w).bind fun _ w1 => .ok () w1
  | .getSurfaces f p, w => (getSurfaces env f p w).bind fun _ w1 => .ok () w1
  | .getSurfacesActive f, w => (getSurfacesActive env f w).bind fun _ w1 => .ok () w1
  | .getTextures f p, w => (getTextures env f p w).bind fun _ w1 => .ok () w1
  | .getTexturesActive f, w => (getTexturesActive env f w).bind fun _ w1 => .ok () w1
  | .preloadSequences, w => preloadSequences env w

/-- Runs the constructor and then a sequence of public operations. -/
def runOps (env : Env) (ops : List Op) : Outcome Unit :=
  (construct env).bind fun _ w => forEach (runOp env) ops w

/-! ## A concrete asset directory -/

/-- The characters from the last dot onwards, when there is a dot. -/
def extensionChars : List Char → Option (List Char)
  | [] => none
  | c :: cs =>
    match extensionChars cs with
    | some e => some e
    | none => if c = '.' then some (c :: cs) else none

/-- Modelled from the spec: `String::getExtension` of `Utilities/String.h`, which is not
among the sources; the spec dispatches on the "file-extension suffix" (".COL", ".IMG",
".MNU", ".SET"), taken here as the part of the name from its last dot. -/
def getExtension (s : String) : String :=
  match extensionChars s.data with
  | some e => String.mk e
  | none => ""

/-- A small asset directory: two palette files, two images, one PNG and one image set of
four chunks.  The sentinel and default palette names stand for those of `PaletteFile`,
which is not among the sources. -/
def demoEnv : Env where
  builtInName := "BuiltIn"
  defaultName := "PAL.COL"
  getExtension := getExtension
  colToPalette := fun n =>
    if n = "PAL.COL" then some [10, 11] else if n = "PAL2.COL" then some [20, 21] else none
  extractPalette := fun n =>
    if n = "X.IMG" then some [30, 31] else if n = "Y.MNU" then some [40, 41] else none
  imgFile := fun n p =>
    if n = "X.IMG" then some ⟨2, 1, (p.getD [30, 31])⟩
    else if n = "Y.MNU" then some ⟨1, 2, (p.getD [40, 41])⟩ else none
  imgLoad := fun path =>
    if path = "data/textures/cursor.png" then some ⟨1, 1, [7]⟩ else none
  convertSurface := fun s => some s
  setFile := fun n p => if n = "Z.SET" then some ⟨4, fun i => i :: p⟩ else none
  chunkWidth := 64
  chunkHeight := 64
  createTextureFromSurface := fun s => some ⟨s.sdl.width, s.sdl.height, s.sdl.pixels⟩
  createTexture := fun w h => some ⟨w, h, []⟩
  sequenceNames := [0]
  fromName := fun _ => ["X.IMG", "cursor"]
  imgInit := true

/-- The demo manager right after construction: the default palette is loaded and active. -/
def demoWorld : World :=
  ⟨⟨[("PAL.COL", [10, 11])], [], [], [], [], "PAL.COL"⟩,
   [.loadPalette "PAL.COL", .colToPalette "PAL.COL"]⟩

/-! ## Properties of worlds and outcomes -/

/-- How often the palette loader was entered for `name`. -/
def loads (name : String) (calls : List Call) : Nat :=
  calls.count (.loadPalette name)

/-- How often a palette decoder (COL decoder or IMG palette extraction) ran on `name`. -/
def decodes (name : String) (calls : List Call) : Nat :=
  calls.count (.colToPalette name) + calls.count (.extractPalette name)

/-- Every entry of the first map is an entry of the second, with the same value. -/
def SubMap {V : Type} (m m' : List (String × V)) : Prop :=
  ∀ k v, find m k = some v → find m' k = some v

/-- Monotone caching: every entry of the palette map and of the four caches of `w` is
still an entry of `w'`, with the same value. -/
def Extends (w w' : World) : Prop :=
  SubMap w.tm.palettes w'.tm.palettes ∧ SubMap w.tm.surfaces w'.tm.surfaces ∧
  SubMap w.tm.textures w'.tm.textures ∧ SubMap w.tm.surfaceSets w'.tm.surfaceSets ∧
  SubMap w.tm.textureSets w'.tm.textureSets

/-- The load-once discipline of a running manager: a palette decoder runs only inside the
loader, the loader was entered at most once per name, and never for a name that is not in
the palette map. -/
def LoadedOnce (palettes : List (String × Palette)) (calls : List Call) : Prop :=
  ∀ name, decodes name calls ≤ loads name calls ∧ loads name calls ≤ 1 ∧
    (find palettes name = none → loads name calls = 0)

/-- The load-once guarantee as seen in the call log alone. -/
def AtMostOnce (calls : List Call) : Prop :=
  ∀ name, decodes name calls ≤ 1 ∧ loads name calls ≤ 1

/-- A postcondition for outcomes: `Q` for a return, `C` for a termination. -/
def Outcome.Post {α : Type} (r : Outcome α) (Q : α → World → Prop)
    (C : Fatal → World → Prop) : Prop :=
  match r with
  | .ok a w => Q a w
  | .crash e w => C e w

/-- What is true of a termination of any operation: it is never the assertion of the loader
nor a failed checked lookup, and the load-once guarantee still holds in the log. -/
def CrashOk (w : World) (e : Fatal) (w' : World) : Prop :=
  e ≠ .assertion ∧ e ≠ .outOfRange ∧ (LoadedOnce w.tm.palettes w.calls → AtMostOnce w'.calls)

/-- What is true of a return of any operation: the maps only grew and the load-once
discipline is kept. -/
def Grows (w w' : World) : Prop :=
  Extends w w' ∧ (LoadedOnce w.tm.palettes w.calls → LoadedOnce w'.tm.palettes w'.calls)

/-- The operation whose outcome is `r` was started in `w` and behaved. -/
def Sound {α : Type} (w : World) (r : Outcome α) : Prop :=
  r.Post (fun _ w' => Grows w w') (CrashOk w)

/-! ## Facts about the maps -/

theorem find_append_single {V : Type} (m : List (String × V)) (k key : String) (v : V) :
    find (m ++ [(k, v)]) key =
      match find m key with
      | some x => some x
      | none => if k = key then some v else none := by
  induction m with
  | nil => simp [find]
  | cons hd tl ih =>
    obtain ⟨k0, v0⟩ := hd
    by_cases h : k0 = key
    · simp [find, h]
    · simp [find, h, ih]

theorem emplace_of_none {V : Type} (m : List (String × V)) (key : String) (v : V)
    (h : find m key = none) : emplace m key v = (m ++ [(key, v)], v) := by
  simp [emplace, h]

theorem emplace_of_some {V : Type} (m : List (String × V)) (key : String) (v x : V)
    (h : find m key = some x) : emplace m key v = (m, x) := by
  simp [emplace, h]

theorem find_emplace_self {V : Type} (m : List (String × V)) (key : String) (v : V) :
    find (emplace m key v).1 key = some (emplace m key v).2 := by
  cases h : find m key with
  | none => simp [emplace, h, find_append_single]
  | some x => simp [emplace, h]

theorem find_emplace_of_some {V : Type} (m : List (String × V)) (k key : String) (v x : V)
    (h : find m key = some x) : find (emplace m k v).1 key = some x := by
  cases hk : find m k with
  | none => simp [emplace, hk, find_append_single, h]
  | some y => simp [emplace, hk, h]

theorem find_emplace_of_ne {V : Type} (m : List (String × V)) (k key : String) (v : V)
    (h : k ≠ key) : find (emplace m k v).1 key = find m key := by
  cases hk : find m k with
  | none =>
    simp only [emplace, hk, find_append_single, h, if_false]
    cases find m key <;> rfl
  | some y => simp [emplace, hk]

theorem find_pushBack_self {V : Type} (m : List (String × List V)) (key : String) (x : V) :
    find (pushBack m key x) key = (find m key).map (fun v => v ++ [x]) := by
  induction m with
  | nil => simp [find, pushBack]
  | cons hd tl ih =>
    obtain ⟨k0, v0⟩ := hd
    by_cases h : k0 = key
    · simp [find, pushBack, h]
    · simp [find, pushBack, h, ih]

theorem find_pushBack_of_ne {V : Type} (m : List (String × List V)) (k key : String) (x : V)
    (h : k ≠ key) : find (pushBack m k x) key = find m key := by
  induction m with
  | nil => simp [find, pushBack]
  | cons hd tl ih =>
    obtain ⟨k0, v0⟩ := hd
    by_cases h0 : k0 = k
    · subst h0
      simp [find, pushBack, h]
    · by_cases h1 : k0 = key
      · subst h1
        simp [find, pushBack, h0]
      · simp [find, pushBack, h0, h1, ih]

/-! ## Facts about outcomes -/

@[simp] theorem bind_ok {α β : Type} (a : α) (w : World) (f : α → World → Outcome β) :
    (Outcome.ok a w).bind f = f a w := rfl

@[simp] theorem bind_crash {α β : Type} (e : Fatal) (w : World) (f : α → World → Outcome β) :
    (Outcome.crash e w : Outcome α).bind f = .crash e w := rfl

theorem bind_eq_ok {α β : Type} (r : Outcome α) (f : α → World → Outcome β) (b : β)
    (w' : World) :
    r.bind f = .ok b w' ↔ ∃ a w1, r = .ok a w1 ∧ f a w1 = .ok b w' := by
  cases r with
  | ok a w =>
    constructor
    · intro h
      exact ⟨a, w, rfl, h⟩
    · rintro ⟨a1, w1, h1, h2⟩
      cases h1
      exact h2
  | crash e w => simp

@[simp] theorem check_true (e : Fatal) (w : World) : check true e w = .ok () w := rfl

@[simp] theorem check_false (e : Fatal) (w : World) : check false e w = .crash e w := rfl

/-! ## The palette loader -/

/-- What `loadPalette` does when the name is not loaded yet, case by case. -/
theorem loadPalette_of_absent (env : Env) (name : String) (w : World)
    (habs : find w.tm.palettes name = none) :
    loadPalette env name w =
      if env.getExtension name = ".COL" then
        match env.colToPalette name with
        | some pal => .ok () ⟨{ w.tm with palettes := w.tm.palettes ++ [(name, pal)] },
            w.calls ++ [.loadPalette name, .colToPalette name]⟩
        | none => .crash (.decodeFailure name)
            ⟨w.tm, w.calls ++ [.loadPalette name, .colToPalette name]⟩
      else if env.getExtension name = ".IMG" ∨ env.getExtension name = ".MNU" then
        match env.extractPalette name with
        | some pal => .ok () ⟨{ w.tm with palettes := w.tm.palettes ++ [(name, pal)] },
            w.calls ++ [.loadPalette name, .extractPalette name]⟩
        | none => .crash (.decodeFailure name)
            ⟨w.tm, w.calls ++ [.loadPalette name, .extractPalette name]⟩
      else .crash (.unrecognizedPalette name) ⟨w.tm, w.calls ++ [.loadPalette name]⟩ := by
  unfold loadPalette
  simp only [World.log, habs, Option.isNone_none, check_true, bind_ok]
  by_cases hc : env.getExtension name = ".COL"
  · simp only [hc, beq_self_eq_true, if_true, loadCOLPalette, World.log]
    cases hd : env.colToPalette name with
    | none => simp
    | some pal => simp [emplace_of_none _ _ _ habs, find_append_single, habs]
  · by_cases hi : env.getExtension name = ".IMG" ∨ env.getExtension name = ".MNU"
    · have hb : (env.getExtension name == ".IMG" || env.getExtension name == ".MNU") = true := by
        simpa using hi
      simp only [hc, hi, hb, beq_iff_eq, if_true, if_false, loadIMGPalette, World.log]
      cases hd : env.extractPalette name with
      | none => simp
      | some pal => simp [emplace_of_none _ _ _ habs, find_append_single, habs]
    · have hb : (env.getExtension name == ".IMG" || env.getExtension name == ".MNU") = false := by
        simpa using hi
      simp [hc, hi, hb]

/-- The three ways a guarded palette load can go: the palette was there, it was loaded
and appended, or the loader terminated the process. -/
theorem guarded_load_cases (env : Env) (name : String) (w : World) :
    (∃ pal, find w.tm.palettes name = some pal ∧
      (if (find w.tm.palettes name).isNone then loadPalette env name w else .ok () w)
        = .ok () w) ∨
    (find w.tm.palettes name = none ∧ ∃ pal c,
      (c = Call.colToPalette name ∨ c = Call.extractPalette name) ∧
      (if (find w.tm.palettes name).isNone then loadPalette env name w else .ok () w)
        = .ok () ⟨{ w.tm with palettes := w.tm.palettes ++ [(name, pal)] },
            w.calls ++ [.loadPalette name, c]⟩) ∨
    (find w.tm.palettes name = none ∧ ∃ e cs,
      (e = Fatal.unrecognizedPalette name ∧ cs = [] ∨
        e = Fatal.decodeFailure name ∧
          (cs = [Call.colToPalette name] ∨ cs = [Call.extractPalette name])) ∧
      (if (find w.tm.palettes name).isNone then loadPalette env name w else .ok () w)
        = .crash e ⟨w.tm, w.calls ++ .loadPalette name :: cs⟩) := by
  cases habs : find w.tm.palettes name with
  | some pal => exact Or.inl ⟨pal, rfl, by simp⟩
  | none =>
    right
    simp only [Option.isNone_none, if_true]
    rw [loadPalette_of_absent env name w habs]
    by_cases hc : env.getExtension name = ".COL"
    · simp only [hc, if_true]
      cases env.colToPalette name with
      | none => exact Or.inr ⟨trivial, _, _, Or.inr ⟨rfl, Or.inl rfl⟩, rfl⟩
      | some pal => exact Or.inl ⟨trivial, pal, _, Or.inl rfl, rfl⟩
    · by_cases hi : env.getExtension name = ".IMG" ∨ env.getExtension name = ".MNU"
      · simp only [hc, hi, if_true, if_false]
        cases env.extractPalette name with
        | none => exact Or.inr ⟨trivial, _, _, Or.inr ⟨rfl, Or.inr rfl⟩, rfl⟩
        | some pal => exact Or.inl ⟨trivial, pal, _, Or.inr rfl, rfl⟩
      · simp only [hc, hi, if_false]
        exact Or.inr ⟨trivial, _, [], Or.inl ⟨rfl, rfl⟩, rfl⟩

/-- The test that guards the palette load in `getSurface` asks whether the palette the
decode needs (the file itself for the built-in palette) is loaded. -/
theorem getSurface_guard (b : Bool) (palettes : List (String × Palette))
    (filename paletteName : String) :
    ((!b && (find palettes paletteName).isNone) || (b && (find palettes filename).isNone)) =
      (find palettes (if b then filename else paletteName)).isNone := by
  cases b <;> simp

/-! ## Monotone growth and the load-once discipline -/

theorem subMap_refl {V : Type} (m : List (String × V)) : SubMap m m :=
  fun _ _ h => h

theorem subMap_trans {V : Type} {a b c : List (String × V)} (h1 : SubMap a b)
    (h2 : SubMap b c) : SubMap a c :=
  fun k v h => h2 k v (h1 k v h)

theorem subMap_emplace {V : Type} (m : List (String × V)) (key : String) (v : V) :
    SubMap m (emplace m key v).1 :=
  fun _ _ h => find_emplace_of_some m key _ v _ h

theorem subMap_append_single {V : Type} (m : List (String × V)) (key : String) (v : V) :
    SubMap m (m ++ [(key, v)]) := by
  intro k x h
  simp [find_append_single, h]

theorem extends_refl (w : World) : Extends w w :=
  ⟨subMap_refl _, subMap_refl _, subMap_refl _, subMap_refl _, subMap_refl _⟩

theorem extends_trans {a b c : World} (h1 : Extends a b) (h2 : Extends b c) : Extends a c :=
  ⟨subMap_trans h1.1 h2.1, subMap_trans h1.2.1 h2.2.1, subMap_trans h1.2.2.1 h2.2.2.1,
    subMap_trans h1.2.2.2.1 h2.2.2.2.1, subMap_trans h1.2.2.2.2 h2.2.2.2.2⟩

theorem loadedOnce_atMostOnce {palettes : List (String × Palette)} {calls : List Call}
    (h : LoadedOnce palettes calls) : AtMostOnce calls :=
  fun name => ⟨le_trans (h name).1 (h name).2.1, (h name).2.1⟩

/-- A successful load of an absent palette keeps the discipline. -/
theorem loadedOnce_load {palettes : List (String × Palette)} {calls : List Call}
    (h : LoadedOnce palettes calls) (name : String) (pal : Palette) (c : Call)
    (habs : find palettes name = none)
    (hc : c = Call.colToPalette name ∨ c = Call.extractPalette name) :
    LoadedOnce (palettes ++ [(name, pal)]) (calls ++ [.loadPalette name, c]) := by
  intro n
  have hn := h n
  have h0 := (h name).2.2 habs
  simp only [loads, decodes] at hn h0 ⊢
  by_cases e : name = n
  · subst e
    rw [h0] at hn
    rcases hc with hc | hc <;> subst hc <;>
      simp [List.count_append, List.count_cons, find_append_single, habs, h0] <;> omega
  · have e' : ¬ n = name := fun x => e x.symm
    rcases hc with hc | hc <;> subst hc <;>
      simp [List.count_append, List.count_cons, find_append_single, e, e'] <;>
      refine ⟨hn.1, hn.2.1, ?_⟩ <;> intro hx <;> apply hn.2.2 <;>
      cases hf : find palettes n <;> simp_all

/-- A failed load of an absent palette still leaves every name loaded at most once. -/
theorem atMostOnce_failed_load {palettes : List (String × Palette)} {calls : List Call}
    (h : LoadedOnce palettes calls) (name : String) (cs : List Call)
    (habs : find palettes name = none)
    (hc : cs = [] ∨ cs = [Call.colToPalette name] ∨ cs = [Call.extractPalette name]) :
    AtMostOnce (calls ++ .loadPalette name :: cs) := by
  intro n
  have hn := h n
  have h0 := (h name).2.2 habs
  simp only [loads, decodes] at hn h0 ⊢
  by_cases e : name = n
  · subst e
    rw [h0] at hn
    rcases hc with hc | hc | hc <;> subst hc <;>
      simp [List.count_append, List.count_cons, h0] <;> omega
  · rcases hc with hc | hc | hc <;> subst hc <;>
      simp [List.count_append, List.count_cons, e] <;> omega

/-- Logging a decoder call that is not a palette call changes no palette count. -/
theorem loadedOnce_log {palettes : List (String × Palette)} {calls : List Call}
    (h : LoadedOnce palettes calls) (c : Call)
    (hc : (∃ f p, c = Call.imgFile f p) ∨ (∃ f, c = Call.imgLoad f) ∨
      (∃ f p, c = Call.setFile f p)) :
    LoadedOnce palettes (calls ++ [c]) := by
  intro n
  have hn := h n
  simp only [loads, decodes] at hn ⊢
  rcases hc with ⟨f, p, rfl⟩ | ⟨f, rfl⟩ | ⟨f, p, rfl⟩ <;>
    simpa [List.count_append, List.count_cons] using hn

/-! ## Postconditions of the operations -/

theorem post_bind {α β : Type} {r : Outcome α} {f : α → World → Outcome β}
    {Q' : α → World → Prop} {Q : β → World → Prop} {C : Fatal → World → Prop}
    (hr : r.Post Q' C) (hf : ∀ a w1, Q' a w1 → (f a w1).Post Q C) : (r.bind f).Post Q C := by
  cases r with
  | ok a w => exact hf a w hr
  | crash e w => exact hr

theorem post_mono {α : Type} {r : Outcome α} {Q Q' : α → World → Prop}
    {C C' : Fatal → World → Prop} (hr : r.Post Q C) (hq : ∀ a w, Q a w → Q' a w)
    (hc : ∀ e w, C e w → C' e w) : r.Post Q' C' := by
  cases r with
  | ok a w => exact hq a w hr
  | crash e w => exact hc e w hr

theorem post_of_eq_ok {α : Type} {r : Outcome α} {Q : α → World → Prop}
    {C : Fatal → World → Prop} (hr : r.Post Q C) {a : α} {w : World} (h : r = .ok a w) :
    Q a w := by
  subst h
  exact hr

theorem post_of_eq_crash {α : Type} {r : Outcome α} {Q : α → World → Prop}
    {C : Fatal → World → Prop} (hr : r.Post Q C) {e : Fatal} {w : World}
    (h : r = .crash e w) : C e w := by
  subst h
  exact hr

/-- The guarded palette load touches only the palette map and the log, leaves the palette
loaded, and keeps the load-once discipline. -/
theorem guarded_load_post (env : Env) (name : String) (w : World) :
    (if (find w.tm.palettes name).isNone then loadPalette env name w
      else .ok () w).Post
      (fun _ w1 => w1.tm.surfaces = w.tm.surfaces ∧ w1.tm.textures = w.tm.textures ∧
        w1.tm.surfaceSets = w.tm.surfaceSets ∧ w1.tm.textureSets = w.tm.textureSets ∧
        w1.tm.activePalette = w.tm.activePalette ∧
        (find w1.tm.palettes name).isSome = true ∧
        SubMap w.tm.palettes w1.tm.palettes ∧
        (LoadedOnce w.tm.palettes w.calls → LoadedOnce w1.tm.palettes w1.calls))
      (CrashOk w) := by
  rcases guarded_load_cases env name w with ⟨pal, hp, hr⟩ | ⟨habs, pal, c, hc, hr⟩ |
    ⟨habs, e, cs, hcs, hr⟩
  · rw [hr]
    exact ⟨rfl, rfl, rfl, rfl, rfl, by simp [hp], subMap_refl _, id⟩
  · rw [hr]
    refine ⟨rfl, rfl, rfl, rfl, rfl, ?_, subMap_append_single _ _ _, ?_⟩
    · simp [find_append_single, habs]
    · intro h
      exact loadedOnce_load h name pal c habs hc
  · rw [hr]
    refine ⟨?_, ?_, ?_⟩
    · rcases hcs with ⟨rfl, _⟩ | ⟨rfl, _⟩ <;> simp
    · rcases hcs with ⟨rfl, _⟩ | ⟨rfl, _⟩ <;> simp
    · intro h
      apply atMostOnce_failed_load h name cs habs
      rcases hcs with ⟨_, h1⟩ | ⟨_, h1 | h1⟩
      · exact Or.inl h1
      · exact Or.inr (Or.inl h1)
      · exact Or.inr (Or.inr h1)

/-- A termination right after logging a decoder call that is not a palette call. -/
theorem crashOk_of_log {w : World} {palettes : List (String × Palette)} {calls : List Call}
    (hlo : LoadedOnce w.tm.palettes w.calls → LoadedOnce palettes calls)
    (e : Fatal) (he1 : e ≠ .assertion) (he2 : e ≠ .outOfRange) (c : Call)
    (hc : (∃ f p, c = Call.imgFile f p) ∨ (∃ f, c = Call.imgLoad f) ∨
      (∃ f p, c = Call.setFile f p)) (tm : State) :
    CrashOk w e ⟨tm, calls ++ [c]⟩ :=
  ⟨he1, he2, fun h => loadedOnce_atMostOnce (loadedOnce_log (hlo h) c hc)⟩

/-- A miss in `getSurface`: on return exactly one surface entry was appended under the
cache key and only the palette map and the log may have grown besides. -/
theorem getSurface_of_miss (env : Env) (f p : String) (w : World)
    (hmiss : find w.tm.surfaces (fullName f p) = none) :
    (getSurface env f p w).Post
      (fun s w' => w'.tm.surfaces = w.tm.surfaces ++ [(fullName f p, s)] ∧
        w'.tm.textures = w.tm.textures ∧ w'.tm.surfaceSets = w.tm.surfaceSets ∧
        w'.tm.textureSets = w.tm.textureSets ∧ w'.tm.activePalette = w.tm.activePalette ∧
        SubMap w.tm.palettes w'.tm.palettes ∧
        (LoadedOnce w.tm.palettes w.calls → LoadedOnce w'.tm.palettes w'.calls))
      (CrashOk w) := by
  unfold getSurface
  simp only [hmiss]
  rw [getSurface_guard]
  refine post_bind (guarded_load_post env _ w) ?_
  rintro _ w1 ⟨h1, h2, h3, h4, h5, hp, hsub, hlo⟩
  have hm1 : find w1.tm.surfaces (fullName f p) = none := by rw [h1]; exact hmiss
  by_cases hext : (env.getExtension f == ".IMG" || env.getExtension f == ".MNU") = true
  · simp only [hext, if_true]
    cases hb : paletteIsBuiltIn env p with
    | true =>
      simp only [if_true, bind_ok, World.log]
      cases env.imgFile f none with
      | none =>
        simp only [bind_crash, Outcome.Post]
        refine crashOk_of_log hlo _ ?_ ?_ _ (Or.inl ⟨_, _, rfl⟩) _ <;> simp
      | some img =>
        dsimp only
        cases env.convertSurface ⟨img.width, img.height, img.pixels⟩ with
        | none =>
          simp only [bind_crash, Outcome.Post]
          refine crashOk_of_log hlo _ ?_ ?_ _ (Or.inl ⟨_, _, rfl⟩) _ <;> simp
        | some opt =>
          simp only [bind_ok, emplace_of_none _ _ _ hm1, Outcome.Post]
          exact ⟨by simp [h1], h2, h3, h4, h5, hsub,
            fun h => loadedOnce_log (hlo h) _ (Or.inl ⟨_, _, rfl⟩)⟩
    | false =>
      rw [hb] at hp
      simp only [Bool.false_eq_true, if_false] at hp ⊢
      obtain ⟨pal, hpal⟩ := Option.isSome_iff_exists.mp hp
      simp only [paletteAt, hpal, bind_ok, World.log]
      cases env.imgFile f (some pal) with
      | none =>
        simp only [bind_crash, Outcome.Post]
        refine crashOk_of_log hlo _ ?_ ?_ _ (Or.inl ⟨_, _, rfl⟩) _ <;> simp
      | some img =>
        dsimp only
        cases env.convertSurface ⟨img.width, img.height, img.pixels⟩ with
        | none =>
          simp only [bind_crash, Outcome.Post]
          refine crashOk_of_log hlo _ ?_ ?_ _ (Or.inl ⟨_, _, rfl⟩) _ <;> simp
        | some opt =>
          simp only [bind_ok, emplace_of_none _ _ _ hm1, Outcome.Post]
          exact ⟨by simp [h1], h2, h3, h4, h5, hsub,
            fun h => loadedOnce_log (hlo h) _ (Or.inl ⟨_, _, rfl⟩)⟩
  · simp only [hext, Bool.false_eq_true, if_false, loadPNG, World.log]
    cases env.imgLoad (PATH ++ f ++ ".png") with
    | none =>
      simp only [bind_crash, Outcome.Post]
      refine crashOk_of_log hlo _ ?_ ?_ _ (Or.inr (Or.inl ⟨_, rfl⟩)) _ <;> simp
    | some png =>
      dsimp only
      cases env.convertSurface png with
      | none =>
        simp only [bind_crash, Outcome.Post]
        refine crashOk_of_log hlo _ ?_ ?_ _ (Or.inr (Or.inl ⟨_, rfl⟩)) _ <;> simp
      | some opt =>
        simp only [bind_ok, emplace_of_none _ _ _ hm1, Outcome.Post]
        exact ⟨by simp [h1], h2, h3, h4, h5, hsub,
          fun h => loadedOnce_log (hlo h) _ (Or.inr (Or.inl ⟨_, rfl⟩))⟩

theorem getSurface_of_hit (env : Env) (f p : String) (w : World) (s : Surface)
    (h : find w.tm.surfaces (fullName f p) = some s) : getSurface env f p w = .ok s w := by
  simp [getSurface, h]

/-- Every return of `getSurface` leaves the returned surface cached under the key, the
other caches untouched, and the palette map and surface cache grown at most. -/
theorem getSurface_post (env : Env) (f p : String) (w : World) :
    (getSurface env f p w).Post
      (fun s w' => find w'.tm.surfaces (fullName f p) = some s ∧
        SubMap w.tm.surfaces w'.tm.surfaces ∧
        w'.tm.textures = w.tm.textures ∧ w'.tm.surfaceSets = w.tm.surfaceSets ∧
        w'.tm.textureSets = w.tm.textureSets ∧ w'.tm.activePalette = w.tm.activePalette ∧
        SubMap w.tm.palettes w'.tm.palettes ∧
        (LoadedOnce w.tm.palettes w.calls → LoadedOnce w'.tm.palettes w'.calls))
      (CrashOk w) := by
  cases h : find w.tm.surfaces (fullName f p) with
  | some s =>
    rw [getSurface_of_hit env f p w s h]
    exact ⟨h, subMap_refl _, rfl, rfl, rfl, rfl, subMap_refl _, id⟩
  | none =>
    refine post_mono (getSurface_of_miss env f p w h) ?_ (fun _ _ hc => hc)
    rintro s w' ⟨h1, h2, h3, h4, h5, h6, h7⟩
    refine ⟨?_, ?_, h2, h3, h4, h5, h6, h7⟩
    · rw [h1]
      simp [find_append_single, h]
    · rw [h1]
      exact subMap_append_single _ _ _

theorem getTexture_of_hit (env : Env) (f p : String) (w : World) (t : Option SDLTexture)
    (h : find w.tm.textures (fullName f p) = some t) : getTexture env f p w = .ok t w := by
  simp [getTexture, h]

/-- A miss in `getTexture`: the surface comes from `getSurface`, the texture made from it
is appended to the texture cache under the key. -/
theorem getTexture_of_miss (env : Env) (f p : String) (w : World)
    (hmiss : find w.tm.textures (fullName f p) = none) :
    (getTexture env f p w).Post
      (fun t w' => w'.tm.textures = w.tm.textures ++ [(fullName f p, t)] ∧
        (∃ s, find w'.tm.surfaces (fullName f p) = some s ∧
          t = env.createTextureFromSurface s) ∧
        SubMap w.tm.surfaces w'.tm.surfaces ∧ w'.tm.surfaceSets = w.tm.surfaceSets ∧
        w'.tm.textureSets = w.tm.textureSets ∧ w'.tm.activePalette = w.tm.activePalette ∧
        SubMap w.tm.palettes w'.tm.palettes ∧
        (LoadedOnce w.tm.palettes w.calls → LoadedOnce w'.tm.palettes w'.calls))
      (CrashOk w) := by
  unfold getTexture
  simp only [hmiss]
  refine post_bind (getSurface_post env f p w) ?_
  rintro s w1 ⟨h1, h2, h3, h4, h5, h6, h7, h8⟩
  have hm1 : find w1.tm.textures (fullName f p) = none := by rw [h3]; exact hmiss
  simp only [emplace_of_none _ _ _ hm1, Outcome.Post]
  exact ⟨by simp [h3], ⟨s, h1, rfl⟩, h2, h4, h5, h6, h7, h8⟩

/-- Every return of `getTexture` leaves the returned texture cached under the key. -/
theorem getTexture_post (env : Env) (f p : String) (w : World) :
    (getTexture env f p w).Post
      (fun t w' => find w'.tm.textures (fullName f p) = some t ∧
        SubMap w.tm.textures w'.tm.textures ∧
        SubMap w.tm.surfaces w'.tm.surfaces ∧ w'.tm.surfaceSets = w.tm.surfaceSets ∧
        w'.tm.textureSets = w.tm.textureSets ∧ w'.tm.activePalette = w.tm.activePalette ∧
        SubMap w.tm.palettes w'.tm.palettes ∧
        (LoadedOnce w.tm.palettes w.calls → LoadedOnce w'.tm.palettes w'.calls))
      (CrashOk w) := by
  cases h : find w.tm.textures (fullName f p) with
  | some t =>
    rw [getTexture_of_hit env f p w t h]
    exact ⟨h, subMap_refl _, subMap_refl _, rfl, rfl, rfl, subMap_refl _, id⟩
  | none =>
    refine post_mono (getTexture_of_miss env f p w h) ?_ (fun _ _ hc => hc)
    rintro t w' ⟨h1, _, h2, h3, h4, h5, h6, h7⟩
    refine ⟨?_, ?_, h2, h3, h4, h5, h6, h7⟩
    · rw [h1]
      simp [find_append_single, h]
    · rw [h1]
      exact subMap_append_single _ _ _

/-- The method `setPalette` loads the palette if need be and makes it the active one. -/
theorem setPalette_post (env : Env) (p : String) (w : World) :
    (setPalette env p w).Post
      (fun _ w' => w'.tm.activePalette = p ∧ (find w'.tm.palettes p).isSome = true ∧
        w'.tm.surfaces = w.tm.surfaces ∧ w'.tm.textures = w.tm.textures ∧
        w'.tm.surfaceSets = w.tm.surfaceSets ∧ w'.tm.textureSets = w.tm.textureSets ∧
        SubMap w.tm.palettes w'.tm.palettes ∧
        (LoadedOnce w.tm.palettes w.calls → LoadedOnce w'.tm.palettes w'.calls))
      (CrashOk w) := by
  unfold setPalette
  refine post_bind (guarded_load_post env p w) ?_
  rintro _ w1 ⟨h1, h2, h3, h4, _, hp, hsub, hlo⟩
  exact ⟨rfl, hp, h1, h2, h3, h4, hsub, hlo⟩

/-! ## The chunk loops -/

theorem find_foldl_pushBack_self {V : Type} (g : Nat → V) (key : String) (l : List Nat)
    (m : List (String × List V)) :
    find (l.foldl (fun acc i => pushBack acc key (g i)) m) key =
      (find m key).map (fun v => v ++ l.map g) := by
  induction l generalizing m with
  | nil => cases h : find m key <;> simp [h]
  | cons i rest ih =>
    simp only [List.foldl_cons, ih, find_pushBack_self]
    cases h : find m key <;> simp

theorem find_foldl_pushBack_of_ne {V : Type} (g : Nat → V) (key k : String) (l : List Nat)
    (m : List (String × List V)) (h : key ≠ k) :
    find (l.foldl (fun acc i => pushBack acc key (g i)) m) k = find m k := by
  induction l generalizing m with
  | nil => rfl
  | cons i rest ih => simp only [List.foldl_cons, ih, find_pushBack_of_ne _ _ _ _ h]

/-- The chunk loop of `getSurfaces` only appends to the vector under the key. -/
theorem foldl_surfaceStep (env : Env) (setFile : SETFile) (key : String) (l : List Nat)
    (w : World) :
    l.foldl (surfaceStep env setFile key) w =
      ⟨{ w.tm with
          surfaceSets := List.foldl (fun acc i => pushBack acc key
              (env.convertSurface ⟨env.chunkWidth, env.chunkHeight, setFile.pixels i⟩))
            w.tm.surfaceSets l }, w.calls⟩ := by
  induction l generalizing w with
  | nil => rfl
  | cons i rest ih => simp only [List.foldl_cons, ih, surfaceStep]

/-- The chunk loop of `getTextures` only appends to the vector under the key. -/
theorem foldl_textureStep (env : Env) (setFile : SETFile) (key : String) (l : List Nat)
    (w : World) :
    l.foldl (textureStep env setFile key) w =
      ⟨{ w.tm with
          textureSets := List.foldl (fun acc i => pushBack acc key
              (updateTexture (env.createTexture env.chunkWidth env.chunkHeight)
                (setFile.pixels i)))
            w.tm.textureSets l }, w.calls⟩ := by
  induction l generalizing w with
  | nil => rfl
  | cons i rest ih => simp only [List.foldl_cons, ih, textureStep]

theorem getSurfaces_of_hit (env : Env) (f p : String) (w : World)
    (v : List (Option SDLSurface)) (h : find w.tm.surfaceSets (fullName f p) = some v) :
    getSurfaces env f p w = .ok v w := by
  simp [getSurfaces, h]

theorem getTextures_of_hit (env : Env) (f p : String) (w : World)
    (v : List (Option SDLTexture)) (h : find w.tm.textureSets (fullName f p) = some v) :
    getTextures env f p w = .ok v w := by
  simp [getTextures, h]

/-- A miss in `getSurfaces`: a return means a SET file was decoded with the loaded palette
and its converted chunks, in order, are the vector cached under the key. -/
theorem getSurfaces_of_miss (env : Env) (f p : String) (w : World)
    (hmiss : find w.tm.surfaceSets (fullName f p) = none) :
    (getSurfaces env f p w).Post
      (fun v w' => find w'.tm.surfaceSets (fullName f p) = some v ∧
        (∃ pal setFile, find w'.tm.palettes p = some pal ∧ env.setFile f pal = some setFile ∧
          v = (List.range setFile.count.toNat).map (fun i =>
            env.convertSurface ⟨env.chunkWidth, env.chunkHeight, setFile.pixels i⟩)) ∧
        SubMap w.tm.surfaceSets w'.tm.surfaceSets ∧
        w'.tm.surfaces = w.tm.surfaces ∧ w'.tm.textures = w.tm.textures ∧
        w'.tm.textureSets = w.tm.textureSets ∧ w'.tm.activePalette = w.tm.activePalette ∧
        SubMap w.tm.palettes w'.tm.palettes ∧
        (LoadedOnce w.tm.palettes w.calls → LoadedOnce w'.tm.palettes w'.calls))
      (CrashOk w) := by
  unfold getSurfaces
  simp only [hmiss]
  cases hb : paletteIsBuiltIn env p with
  | true =>
    simp only [Bool.not_true, check_false, bind_crash, Outcome.Post]
    exact ⟨by simp, by simp, fun h => loadedOnce_atMostOnce h⟩
  | false =>
    simp only [Bool.not_false, check_true, bind_ok]
    refine post_bind (guarded_load_post env p w) ?_
    rintro _ w2 ⟨h1, h2, h3, h4, h5, hp, hsub, hlo⟩
    have hm2 : find w2.tm.surfaceSets (fullName f p) = none := by rw [h3]; exact hmiss
    obtain ⟨pal, hpal⟩ := Option.isSome_iff_exists.mp hp
    simp only [emplace_of_none _ _ _ hm2, paletteAt, hpal, bind_ok]
    by_cases hext : (env.getExtension f == ".SET") = true
    · simp only [hext, if_true, World.log]
      cases hsf : env.setFile f pal with
      | none =>
        simp only [Outcome.Post]
        refine crashOk_of_log hlo _ ?_ ?_ _ (Or.inr (Or.inr ⟨_, _, rfl⟩)) _ <;> simp
      | some setFile =>
        simp only [foldl_surfaceStep, Outcome.Post, setAt, find_foldl_pushBack_self,
          find_append_single, hm2, if_true, Option.map_some', Option.getD_some,
          List.nil_append]
        refine ⟨trivial, ⟨pal, setFile, hpal, hsf, rfl⟩, ?_, h1, h2, h4, h5, hsub, ?_⟩
        · intro k x hk
          have hne : fullName f p ≠ k := by
            intro e
            rw [e] at hmiss
            rw [hmiss] at hk
            cases hk
          rw [find_foldl_pushBack_of_ne _ _ _ _ _ hne, h3]
          exact subMap_append_single _ _ _ k x hk
        · intro h
          exact loadedOnce_log (hlo h) _ (Or.inr (Or.inr ⟨_, _, rfl⟩))
    · simp only [hext, Bool.false_eq_true, if_false, Outcome.Post]
      exact ⟨by simp, by simp, fun h => loadedOnce_atMostOnce (hlo h)⟩

/-- A miss in `getTextures`: a return means a SET file was decoded with the loaded palette
and one texture per chunk, in order, is the vector cached under the key. -/
theorem getTextures_of_miss (env : Env) (f p : String) (w : World)
    (hmiss : find w.tm.textureSets (fullName f p) = none) :
    (getTextures env f p w).Post
      (fun v w' => find w'.tm.textureSets (fullName f p) = some v ∧
        (∃ pal setFile, find w'.tm.palettes p = some pal ∧ env.setFile f pal = some setFile ∧
          v = (List.range setFile.count.toNat).map (fun i =>
            updateTexture (env.createTexture env.chunkWidth env.chunkHeight)
              (setFile.pixels i))) ∧
        SubMap w.tm.textureSets w'.tm.textureSets ∧
        w'.tm.surfaces = w.tm.surfaces ∧ w'.tm.textures = w.tm.textures ∧
        w'.tm.surfaceSets = w.tm.surfaceSets ∧ w'.tm.activePalette = w.tm.activePalette ∧
        SubMap w.tm.palettes w'.tm.palettes ∧
        (LoadedOnce w.tm.palettes w.calls → LoadedOnce w'.tm.palettes w'.calls))
      (CrashOk w) := by
  unfold getTextures
  simp only [hmiss]
  cases hb : paletteIsBuiltIn env p with
  | true =>
    simp only [Bool.not_true, check_false, bind_crash, Outcome.Post]
    exact ⟨by simp, by simp, fun h => loadedOnce_atMostOnce h⟩
  | false =>
    simp only [Bool.not_false, check_true, bind_ok]
    refine post_bind (guarded_load_post env p w) ?_
    rintro _ w2 ⟨h1, h2, h3, h4, h5, hp, hsub, hlo⟩
    have hm2 : find w2.tm.textureSets (fullName f p) = none := by rw [h4]; exact hmiss
    obtain ⟨pal, hpal⟩ := Option.isSome_iff_exists.mp hp
    simp only [emplace_of_none _ _ _ hm2, paletteAt, hpal, bind_ok]
    by_cases hext : (env.getExtension f == ".SET") = true
    · simp only [hext, if_true, World.log]
      cases hsf : env.setFile f pal with
      | none =>
        simp only [Outcome.Post]
        refine crashOk_of_log hlo _ ?_ ?_ _ (Or.inr (Or.inr ⟨_, _, rfl⟩)) _ <;> simp
      | some setFile =>
        simp only [foldl_textureStep, Outcome.Post, setAt, find_foldl_pushBack_self,
          find_append_single, hm2, if_true, Option.map_some', Option.getD_some,
          List.nil_append]
        refine ⟨trivial, ⟨pal, setFile, hpal, hsf, rfl⟩, ?_, h1, h2, h3, h5, hsub, ?_⟩
        · intro k x hk
          have hne : fullName f p ≠ k := by
            intro e
            rw [e] at hmiss
            rw [hmiss] at hk
            cases hk
          rw [find_foldl_pushBack_of_ne _ _ _ _ _ hne, h4]
          exact subMap_append_single _ _ _ k x hk
        · intro h
          exact loadedOnce_log (hlo h) _ (Or.inr (Or.inr ⟨_, _, rfl⟩))
    · simp only [hext, Bool.false_eq_true, if_false, Outcome.Post]
      exact ⟨by simp, by simp, fun h => loadedOnce_atMostOnce (hlo h)⟩

/-! ## Soundness of every public operation -/

theorem grows_refl (w : World) : Grows w w :=
  ⟨extends_refl w, id⟩

theorem grows_trans {a b c : World} (h1 : Grows a b) (h2 : Grows b c) : Grows a c :=
  ⟨extends_trans h1.1 h2.1, fun h => h2.2 (h1.2 h)⟩

theorem crashOk_of_grows {a b c : World} {e : Fatal} (h1 : Grows a b) (h2 : CrashOk b e c) :
    CrashOk a e c :=
  ⟨h2.1, h2.2.1, fun h => h2.2.2 (h1.2 h)⟩

theorem sound_bind {α β : Type} {w : World} {r : Outcome α} {f : α → World → Outcome β}
    (hr : Sound w r) (hf : ∀ a w1, Grows w w1 → Sound w1 (f a w1)) : Sound w (r.bind f) := by
  cases r with
  | ok a w1 =>
    have hg : Grows w w1 := hr
    exact post_mono (hf a w1 hg) (fun _ _ h => grows_trans hg h)
      (fun _ _ h => crashOk_of_grows hg h)
  | crash e w1 => exact hr

theorem sound_ok {α : Type} (w : World) (a : α) : Sound w (Outcome.ok a w) :=
  grows_refl w

theorem sound_forEach {α : Type} (body : α → World → Outcome Unit)
    (hbody : ∀ x w, Sound w (body x w)) (l : List α) (w : World) :
    Sound w (forEach body l w) := by
  induction l generalizing w with
  | nil => exact grows_refl w
  | cons x rest ih => exact sound_bind (hbody x w) (fun _ w1 _ => ih w1)

theorem sound_getSurface (env : Env) (f p : String) (w : World) :
    Sound w (getSurface env f p w) := by
  refine post_mono (getSurface_post env f p w) ?_ (fun _ _ h => h)
  rintro s w' ⟨_, h2, h3, h4, h5, _, h7, h8⟩
  refine ⟨⟨h7, h2, ?_, ?_, ?_⟩, h8⟩
  · rw [h3]; exact subMap_refl _
  · rw [h4]; exact subMap_refl _
  · rw [h5]; exact subMap_refl _

theorem sound_getTexture (env : Env) (f p : String) (w : World) :
    Sound w (getTexture env f p w) := by
  refine post_mono (getTexture_post env f p w) ?_ (fun _ _ h => h)
  rintro s w' ⟨_, h2, h3, h4, h5, _, h7, h8⟩
  refine ⟨⟨h7, h3, h2, ?_, ?_⟩, h8⟩
  · rw [h4]; exact subMap_refl _
  · rw [h5]; exact subMap_refl _

theorem sound_getSurfaces (env : Env) (f p : String) (w : World) :
    Sound w (getSurfaces env f p w) := by
  cases h : find w.tm.surfaceSets (fullName f p) with
  | some v =>
    rw [getSurfaces_of_hit env f p w v h]
    exact grows_refl w
  | none =>
    refine post_mono (getSurfaces_of_miss env f p w h) ?_ (fun _ _ h => h)
    rintro s w' ⟨_, _, h2, h3, h4, h5, _, h7, h8⟩
    refine ⟨⟨h7, ?_, ?_, h2, ?_⟩, h8⟩
    · rw [h3]; exact subMap_refl _
    · rw [h4]; exact subMap_refl _
    · rw [h5]; exact subMap_refl _

theorem sound_getTextures (env : Env) (f p : String) (w : World) :
    Sound w (getTextures env f p w) := by
  cases h : find w.tm.textureSets (fullName f p) with
  | some v =>
    rw [getTextures_of_hit env f p w v h]
    exact grows_refl w
  | none =>
    refine post_mono (getTextures_of_miss env f p w h) ?_ (fun _ _ h => h)
    rintro s w' ⟨_, _, h2, h3, h4, h5, _, h7, h8⟩
    refine ⟨⟨h7, ?_, ?_, ?_, h2⟩, h8⟩
    · rw [h3]; exact subMap_refl _
    · rw [h4]; exact subMap_refl _
    · rw [h5]; exact subMap_refl _

theorem sound_setPalette (env : Env) (p : String) (w : World) :
    Sound w (setPalette env p w) := by
  refine post_mono (setPalette_post env p w) ?_ (fun _ _ h => h)
  rintro _ w' ⟨_, _, h1, h2, h3, h4, h7, h8⟩
  refine ⟨⟨h7, ?_, ?_, ?_, ?_⟩, h8⟩
  · rw [h1]; exact subMap_refl _
  · rw [h2]; exact subMap_refl _
  · rw [h3]; exact subMap_refl _
  · rw [h4]; exact subMap_refl _

theorem sound_discard {α : Type} {w : World} {r : Outcome α} (hr : Sound w r) :
    Sound w (r.bind fun _ w1 => Outcome.ok () w1) :=
  sound_bind hr (fun _ w1 _ => grows_refl w1)

theorem sound_preloadSequences (env : Env) (w : World) :
    Sound w (preloadSequences env w) := by
  unfold preloadSequences
  refine sound_forEach _ ?_ _ w
  intro name w1
  refine sound_forEach _ ?_ _ w1
  intro filename w2
  exact sound_discard (sound_getTexture env filename _ w2)

theorem sound_runOp (env : Env) (op : Op) (w : World) : Sound w (runOp env op w) := by
  cases op with
  | setPalette p => exact sound_setPalette env p w
  | getSurface f p => exact sound_discard (sound_getSurface env f p w)
  | getSurfaceActive f => exact sound_discard (sound_getSurface env f _ w)
  | getTexture f p => exact sound_discard (sound_getTexture env f p w)
  | getTextureActive f => exact sound_discard (sound_getTexture env f _ w)
  | getSurfaces f p => exact sound_discard (sound_getSurfaces env f p w)
  | getSurfacesActive f => exact sound_discard (sound_getSurfaces env f _ w)
  | getTextures f p => exact sound_discard (sound_getTextures env f p w)
  | getTexturesActive f => exact sound_discard (sound_getTextures env f _ w)
  | preloadSequences => exact sound_preloadSequences env w

theorem loadedOnce_empty : LoadedOnce emptyWorld.tm.palettes emptyWorld.calls := by
  intro name
  simp [emptyWorld, loads, decodes]

theorem sound_construct (env : Env) : Sound emptyWorld (construct env) := by
  unfold construct
  refine sound_bind (sound_setPalette env _ emptyWorld) ?_
  intro _ w1 _
  cases env.imgInit with
  | true => exact grows_refl w1
  | false => exact ⟨by simp, by simp, fun h => loadedOnce_atMostOnce h⟩

theorem sound_runOps (env : Env) (ops : List Op) : Sound emptyWorld (runOps env ops) :=
  sound_bind (sound_construct env) (fun _ w _ => sound_forEach _ (sound_runOp env) ops w)

/-! ## The claims -/

/-- C1: when `getSurface`, `getTexture`, `getSurfaces` or `getTextures` returns, an
immediately repeated call with the same arguments returns the same resource and ends in
the very same world: the palette map, the four caches and the active palette are
unchanged, and the call log has not grown, so neither the palette loader nor a decoder
ran. -/
theorem c1_repeated_call_is_cache_hit (env : Env) (f p : String) (w : World) :
    (∀ s w', getSurface env f p w = .ok s w' → getSurface env f p w' = .ok s w') ∧
    (∀ t w', getTexture env f p w = .ok t w' → getTexture env f p w' = .ok t w') ∧
    (∀ v w', getSurfaces env f p w = .ok v w' → getSurfaces env f p w' = .ok v w') ∧
    (∀ v w', getTextures env f p w = .ok v w' → getTextures env f p w' = .ok v w') := by
  refine ⟨?_, ?_, ?_, ?_⟩
  · intro s w' h
    exact getSurface_of_hit env f p w' s (post_of_eq_ok (getSurface_post env f p w) h).1
  · intro t w' h
    exact getTexture_of_hit env f p w' t (post_of_eq_ok (getTexture_post env f p w) h).1
  · intro v w' h
    cases hc : find w.tm.surfaceSets (fullName f p) with
    | some v0 =>
      rw [getSurfaces_of_hit env f p w v0 hc] at h
      have hv : v = v0 ∧ w' = w := by
        cases h
        exact ⟨rfl, rfl⟩
      rw [hv.1, hv.2]
      exact getSurfaces_of_hit env f p w v0 hc
    | none =>
      exact getSurfaces_of_hit env f p w' v
        (post_of_eq_ok (getSurfaces_of_miss env f p w hc) h).1
  · intro v w' h
    cases hc : find w.tm.textureSets (fullName f p) with
    | some v0 =>
      rw [getTextures_of_hit env f p w v0 hc] at h
      have hv : v = v0 ∧ w' = w := by
        cases h
        exact ⟨rfl, rfl⟩
      rw [hv.1, hv.2]
      exact getTextures_of_hit env f p w v0 hc
    | none =>
      exact getTextures_of_hit env f p w' v
        (post_of_eq_ok (getTextures_of_miss env f p w hc) h).1

/-- C1 at the demo manager: the image `X.IMG` and the set `Z.SET` are decoded by the first
call and served from the caches by the second. -/
theorem c1_repeated_call_is_cache_hit_witness :
    (getSurface demoEnv "X.IMG" "PAL.COL" demoWorld).isOk = true ∧
    (getTexture demoEnv "X.IMG" "PAL.COL" demoWorld).isOk = true ∧
    (getSurfaces demoEnv "Z.SET" "PAL.COL" demoWorld).isOk = true ∧
    (getTextures demoEnv "Z.SET" "PAL.COL" demoWorld).isOk = true ∧
    getSurface demoEnv "X.IMG" "PAL.COL"
        (getSurface demoEnv "X.IMG" "PAL.COL" demoWorld).world =
      .ok ⟨⟨2, 1, [10, 11]⟩⟩ (getSurface demoEnv "X.IMG" "PAL.COL" demoWorld).world ∧
    getTexture demoEnv "X.IMG" "PAL.COL"
        (getTexture demoEnv "X.IMG" "PAL.COL" demoWorld).world =
      .ok (some ⟨2, 1, [10, 11]⟩) (getTexture demoEnv "X.IMG" "PAL.COL" demoWorld).world ∧
    (getSurfaces demoEnv "Z.SET" "PAL.COL"
        (getSurfaces demoEnv "Z.SET" "PAL.COL" demoWorld).world).world =
      (getSurfaces demoEnv "Z.SET" "PAL.COL" demoWorld).world ∧
    (getTextures demoEnv "Z.SET" "PAL.COL"
        (getTextures demoEnv "Z.SET" "PAL.COL" demoWorld).world).world =
      (getTextures demoEnv "Z.SET" "PAL.COL" demoWorld).world :=
  ⟨by decide, by decide, by decide, by decide,
    (c1_repeated_call_is_cache_hit demoEnv "X.IMG" "PAL.COL" demoWorld).1 _ _ (by decide),
    (c1_repeated_call_is_cache_hit demoEnv "X.IMG" "PAL.COL" demoWorld).2.1 _ _ (by decide),
    congrArg Outcome.world
      ((c1_repeated_call_is_cache_hit demoEnv "Z.SET" "PAL.COL" demoWorld).2.2.1
        (setAt (getSurfaces demoEnv "Z.SET" "PAL.COL" demoWorld).world.tm.surfaceSets
          "Z.SETPAL.COL") _ (by decide)),
    congrArg Outcome.world
      ((c1_repeated_call_is_cache_hit demoEnv "Z.SET" "PAL.COL" demoWorld).2.2.2
        (setAt (getTextures demoEnv "Z.SET" "PAL.COL" demoWorld).world.tm.textureSets
          "Z.SETPAL.COL") _ (by decide))⟩

/-- C2, as stated, fails: the filename `X.IMG` with the palette name `X.IMGPAL.COL` and the
filename `X.IMGX.IMG` with the palette name `PAL.COL` are different pairs with the same
cache key, both with an image extension for the file and a palette extension for the
palette. -/
theorem c2_key_collision :
    fullName "X.IMG" "X.IMGPAL.COL" = fullName "X.IMGX.IMG" "PAL.COL" ∧
    ¬ (("X.IMG" : String) = "X.IMGX.IMG" ∧ ("X.IMGPAL.COL" : String) = "PAL.COL") ∧
    getExtension "X.IMG" = ".IMG" ∧ getExtension "X.IMGX.IMG" = ".IMG" ∧
    getExtension "X.IMGPAL.COL" = ".COL" ∧ getExtension "PAL.COL" = ".COL" := by
  decide

/-- C2, amended: the cache key determines the pair as soon as the two filenames have the
same length (in particular for one filename with two palettes) or the two palette names
have the same length (in particular for one palette with two filenames). -/
theorem c2_key_unique_for_equal_lengths (f1 p1 f2 p2 : String)
    (hlen : f1.length = f2.length ∨ p1.length = p2.length)
    (hkey : fullName f1 p1 = fullName f2 p2) : f1 = f2 ∧ p1 = p2 := by
  have hdata : f1.data ++ p1.data = f2.data ++ p2.data := by
    have := congrArg String.data hkey
    simpa [fullName] using this
  have hpair : f1.data = f2.data ∧ p1.data = p2.data := by
    rcases hlen with h | h
    · exact List.append_inj hdata h
    · exact List.append_inj' hdata h
  exact ⟨String.ext hpair.1, String.ext hpair.2⟩

/-- C2 amended, at one filename with the sentinel and with a palette file. -/
theorem c2_key_unique_for_equal_lengths_witness :
    (("X.IMG" : String).length = ("X.IMG" : String).length ∨
      ("BuiltIn" : String).length = ("BuiltIn" : String).length) ∧
    fullName "X.IMG" "BuiltIn" = fullName "X.IMG" "BuiltIn" ∧
    (("X.IMG" : String) = "X.IMG" ∧ ("BuiltIn" : String) = "BuiltIn") :=
  ⟨Or.inl rfl, rfl,
    c2_key_unique_for_equal_lengths "X.IMG" "BuiltIn" "X.IMG" "BuiltIn" (Or.inl rfl) rfl⟩

/-- C3: on a miss in the set cache, `getSurfaces` and `getTextures` called with the
built-in palette name terminate with the precondition failure in the unchanged world: no
palette was loaded, no cache entry inserted, and the call log shows no loader or decoder
call. -/
theorem c3_sets_reject_built_in_palette (env : Env) (f : String) (w : World) :
    (find w.tm.surfaceSets (fullName f env.builtInName) = none →
      getSurfaces env f env.builtInName w = .crash .builtInForSet w) ∧
    (find w.tm.textureSets (fullName f env.builtInName) = none →
      getTextures env f env.builtInName w = .crash .builtInForSet w) := by
  constructor
  · intro h
    simp [getSurfaces, h, paletteIsBuiltIn]
  · intro h
    simp [getTextures, h, paletteIsBuiltIn]

/-- C3 at the demo manager, for the set file `Z.SET`. -/
theorem c3_sets_reject_built_in_palette_witness :
    find demoWorld.tm.surfaceSets (fullName "Z.SET" demoEnv.builtInName) = none ∧
    find demoWorld.tm.textureSets (fullName "Z.SET" demoEnv.builtInName) = none ∧
    getSurfaces demoEnv "Z.SET" demoEnv.builtInName demoWorld =
      .crash .builtInForSet demoWorld ∧
    getTextures demoEnv "Z.SET" demoEnv.builtInName demoWorld =
      .crash .builtInForSet demoWorld :=
  ⟨by decide, by decide,
    (c3_sets_reject_built_in_palette demoEnv "Z.SET" demoWorld).1 (by decide),
    (c3_sets_reject_built_in_palette demoEnv "Z.SET" demoWorld).2 (by decide)⟩

/-- C4, as stated, fails: `cursor` has no image extension, the request misses the cache,
and `getSurface` returns the surface of `data/textures/cursor.png`. -/
theorem c4_png_fallback_returns :
    demoEnv.getExtension "cursor" ≠ ".IMG" ∧ demoEnv.getExtension "cursor" ≠ ".MNU" ∧
    find demoWorld.tm.surfaces (fullName "cursor" "PAL.COL") = none ∧
    getSurface demoEnv "cursor" "PAL.COL" demoWorld =
      .ok ⟨⟨1, 1, [7]⟩⟩
        ⟨{ demoWorld.tm with surfaces := [("cursorPAL.COL", ⟨⟨1, 1, [7]⟩⟩)] },
          demoWorld.calls ++ [.imgLoad "data/textures/cursor.png"]⟩ := by
  decide

/-- C4, amended: for a filename whose extension is neither `.IMG` nor `.MNU`, a miss in
`getSurface` falls back to the PNG loader on `PATH ++ filename ++ ".png"`.  Whenever the
call returns, the surface is the optimised PNG and it was appended to the cache under the
key; when the PNG cannot be opened or optimised the call terminates; and when the palette
it needs is loaded and the PNG opens and converts, the call returns after the single
decoder call `IMG_Load`. -/
theorem c4_other_extensions_use_png (env : Env) (f p : String) (w : World)
    (hIMG : env.getExtension f ≠ ".IMG") (hMNU : env.getExtension f ≠ ".MNU")
    (hmiss : find w.tm.surfaces (fullName f p) = none) :
    (∀ s w', getSurface env f p w = .ok s w' →
      ∃ png opt, env.imgLoad (PATH ++ f ++ ".png") = some png ∧
        env.convertSurface png = some opt ∧ s = ⟨opt⟩ ∧
        w'.tm.surfaces = w.tm.surfaces ++ [(fullName f p, s)]) ∧
    ((env.imgLoad (PATH ++ f ++ ".png") = none ∨
        ∃ png, env.imgLoad (PATH ++ f ++ ".png") = some png ∧
          env.convertSurface png = none) →
      ∃ e w', getSurface env f p w = .crash e w') ∧
    (∀ pal png opt,
      find w.tm.palettes (if paletteIsBuiltIn env p then f else p) = some pal →
      env.imgLoad (PATH ++ f ++ ".png") = some png → env.convertSurface png = some opt →
      getSurface env f p w =
        .ok ⟨opt⟩ ⟨{ w.tm with surfaces := w.tm.surfaces ++ [(fullName f p, ⟨opt⟩)] },
          w.calls ++ [.imgLoad (PATH ++ f ++ ".png")]⟩) := by
  have hext : (env.getExtension f == ".IMG" || env.getExtension f == ".MNU") = false := by
    simp [hIMG, hMNU]
  have hpost : (getSurface env f p w).Post
      (fun s _ => ∃ png opt, env.imgLoad (PATH ++ f ++ ".png") = some png ∧
        env.convertSurface png = some opt ∧ s = ⟨opt⟩) (fun _ _ => True) := by
    unfold getSurface
    simp only [hmiss, hext, Bool.false_eq_true, if_false]
    rw [getSurface_guard]
    refine post_bind (post_mono (guarded_load_post env _ w) (fun _ _ h => h)
      (fun _ _ _ => trivial)) ?_
    rintro _ w1 ⟨h1, -⟩
    have hm1 : find w1.tm.surfaces (fullName f p) = none := by rw [h1]; exact hmiss
    simp only [loadPNG, World.log]
    cases hl : env.imgLoad (PATH ++ f ++ ".png") with
    | none => simp only [bind_crash, Outcome.Post]
    | some png =>
      dsimp only
      cases hcv : env.convertSurface png with
      | none => simp only [bind_crash, Outcome.Post]
      | some opt =>
        simp only [bind_ok, emplace_of_none _ _ _ hm1, Outcome.Post]
        exact ⟨png, opt, rfl, hcv, rfl⟩
  have hfirst : ∀ s w', getSurface env f p w = .ok s w' →
      ∃ png opt, env.imgLoad (PATH ++ f ++ ".png") = some png ∧
        env.convertSurface png = some opt ∧ s = ⟨opt⟩ ∧
        w'.tm.surfaces = w.tm.surfaces ++ [(fullName f p, s)] := by
    intro s w' h
    obtain ⟨png, opt, h1, h2, h3⟩ := post_of_eq_ok hpost h
    exact ⟨png, opt, h1, h2, h3, (post_of_eq_ok (getSurface_of_miss env f p w hmiss) h).1⟩
  refine ⟨hfirst, ?_, ?_⟩
  · intro hfail
    cases hr : getSurface env f p w with
    | crash e w' => exact ⟨e, w', rfl⟩
    | ok s w' =>
      exfalso
      obtain ⟨png, opt, h1, h2, -⟩ := hfirst s w' hr
      rcases hfail with h | ⟨png', h3, h4⟩
      · rw [h] at h1
        cases h1
      · rw [h3] at h1
        cases h1
        rw [h4] at h2
        cases h2
  · intro pal png opt hpal hl hcv
    unfold getSurface
    simp only [hmiss, hext, Bool.false_eq_true, if_false]
    rw [getSurface_guard]
    simp [hpal, loadPNG, hl, hcv, World.log, emplace_of_none _ _ _ hmiss]

/-- C4 amended, at the demo manager: `cursor` is served from `data/textures/cursor.png`. -/
theorem c4_other_extensions_use_png_witness :
    demoEnv.getExtension "cursor" ≠ ".IMG" ∧ demoEnv.getExtension "cursor" ≠ ".MNU" ∧
    find demoWorld.tm.surfaces (fullName "cursor" "PAL.COL") = none ∧
    getSurface demoEnv "cursor" "PAL.COL" demoWorld =
      .ok ⟨⟨1, 1, [7]⟩⟩
        ⟨{ demoWorld.tm with
            surfaces := demoWorld.tm.surfaces ++ [(fullName "cursor" "PAL.COL", ⟨⟨1, 1, [7]⟩⟩)] },
          demoWorld.calls ++ [.imgLoad (PATH ++ "cursor" ++ ".png")]⟩ :=
  ⟨by decide, by decide, by decide,
    (c4_other_extensions_use_png demoEnv "cursor" "PAL.COL" demoWorld (by decide) (by decide)
      (by decide)).2.2 [10, 11] ⟨1, 1, [7]⟩ ⟨1, 1, [7]⟩ (by decide) (by decide) (by decide)⟩

/-- C5: for a name that is not in the palette map, `loadPalette` terminates with
"Unrecognized palette" exactly when the extension is none of `.COL`, `.IMG`, `.MNU`.  With
`.COL` it calls the COL decoder and nothing else, with `.IMG` or `.MNU` the IMG palette
extraction and nothing else; when the decoder delivers a palette the call returns and the
palette map is the old one with the single entry `name -> palette` appended, and when the
decoder itself terminates the process the palette map is unchanged. -/
theorem c5_loadPalette_dispatch (env : Env) (name : String) (w : World)
    (habs : find w.tm.palettes name = none) :
    ((∃ w', loadPalette env name w = .crash (.unrecognizedPalette name) w') ↔
      (env.getExtension name ≠ ".COL" ∧ env.getExtension name ≠ ".IMG" ∧
        env.getExtension name ≠ ".MNU")) ∧
    (env.getExtension name = ".COL" →
      (∀ pal, env.colToPalette name = some pal →
        loadPalette env name w =
          .ok () ⟨{ w.tm with palettes := w.tm.palettes ++ [(name, pal)] },
            w.calls ++ [.loadPalette name, .colToPalette name]⟩) ∧
      (env.colToPalette name = none →
        loadPalette env name w =
          .crash (.decodeFailure name)
            ⟨w.tm, w.calls ++ [.loadPalette name, .colToPalette name]⟩)) ∧
    ((env.getExtension name = ".IMG" ∨ env.getExtension name = ".MNU") →
      (∀ pal, env.extractPalette name = some pal →
        loadPalette env name w =
          .ok () ⟨{ w.tm with palettes := w.tm.palettes ++ [(name, pal)] },
            w.calls ++ [.loadPalette name, .extractPalette name]⟩) ∧
      (env.extractPalette name = none →
        loadPalette env name w =
          .crash (.decodeFailure name)
            ⟨w.tm, w.calls ++ [.loadPalette name, .extractPalette name]⟩)) := by
  rw [loadPalette_of_absent env name w habs]
  refine ⟨?_, ?_, ?_⟩
  · by_cases hc : env.getExtension name = ".COL"
    · simp only [hc, if_true]
      cases env.colToPalette name <;> simp
    · by_cases hi : env.getExtension name = ".IMG" ∨ env.getExtension name = ".MNU"
      · simp only [hc, hi, if_true, if_false]
        have hn : ¬ (env.getExtension name ≠ ".IMG" ∧ env.getExtension name ≠ ".MNU") := by
          rintro ⟨h1, h2⟩
          rcases hi with h | h
          · exact h1 h
          · exact h2 h
        cases env.extractPalette name <;> simp [hn]
      · simp only [hc, hi, if_false]
        have hi' := not_or.mp hi
        simp [hc, hi'.1, hi'.2]
  · intro hc
    simp only [hc, if_true]
    constructor
    · intro pal hd
      simp [hd]
    · intro hd
      simp [hd]
  · intro hi
    have hc : env.getExtension name ≠ ".COL" := by
      rcases hi with h | h <;> rw [h] <;> decide
    simp only [hc, hi, if_true, if_false]
    constructor
    · intro pal hd
      simp [hd]
    · intro hd
      simp [hd]

/-- C5 at the demo manager: `PAL2.COL` is not loaded yet and is decoded as a COL file. -/
theorem c5_loadPalette_dispatch_witness :
    find demoWorld.tm.palettes "PAL2.COL" = none ∧
    demoEnv.getExtension "PAL2.COL" = ".COL" ∧
    demoEnv.colToPalette "PAL2.COL" = some [20, 21] ∧
    loadPalette demoEnv "PAL2.COL" demoWorld =
      .ok () ⟨{ demoWorld.tm with palettes := demoWorld.tm.palettes ++ [("PAL2.COL", [20, 21])] },
        demoWorld.calls ++ [.loadPalette "PAL2.COL", .colToPalette "PAL2.COL"]⟩ :=
  ⟨by decide, by decide, by decide,
    ((c5_loadPalette_dispatch demoEnv "PAL2.COL" demoWorld (by decide)).2.1 (by decide)).1
      [20, 21] (by decide)⟩

/-- C6: in every run of the constructor followed by any sequence of public operations,
and at whatever point the run ends, the assertion at the start of `loadPalette` has not
failed, and for every palette name the loader was entered at most once and a palette
decoder ran at most once.  Moreover no public operation, started in any manager state
whatever, ends in a failed assertion. -/
theorem c6_palette_loaded_at_most_once (env : Env) (ops : List Op) :
    (∀ w', runOps env ops ≠ .crash .assertion w') ∧
    (∀ name, decodes name (runOps env ops).world.calls ≤ 1 ∧
      loads name (runOps env ops).world.calls ≤ 1) ∧
    (∀ op w w', runOp env op w ≠ .crash .assertion w') := by
  have hs := sound_runOps env ops
  refine ⟨?_, ?_, ?_⟩
  · intro w' h
    exact (post_of_eq_crash hs h).1 rfl
  · cases hr : runOps env ops with
    | ok u w' =>
      have hg : Grows emptyWorld w' := post_of_eq_ok hs hr
      exact loadedOnce_atMostOnce (hg.2 loadedOnce_empty)
    | crash e w' =>
      have hc : CrashOk emptyWorld e w' := post_of_eq_crash hs hr
      exact hc.2.2 loadedOnce_empty
  · intro op w w' h
    exact (post_of_eq_crash (sound_runOp env op w) h).1 rfl

/-- For one filename, different palette names give different cache keys. -/
theorem fullName_left_cancel (f p1 p2 : String) (h : fullName f p1 = fullName f p2) :
    p1 = p2 := by
  have hdata : f.data ++ p1.data = f.data ++ p2.data := by
    have := congrArg String.data h
    simpa [fullName] using this
  exact String.ext (List.append_cancel_left hdata)

/-- C7: once `setPalette p` has returned, whatever palette was active before, the
one-argument `getSurface f` is the call `getSurface f p` and the one-argument `getTexture f`
is the call `getTexture f p`; when they return, the resource returned is the cache entry
under the key `f ++ p`. -/
theorem c7_active_palette_is_used (env : Env) (p f : String) (w w' : World)
    (hset : setPalette env p w = .ok () w') :
    getSurfaceActive env f w' = getSurface env f p w' ∧
    getTextureActive env f w' = getTexture env f p w' ∧
    (∀ s w'', getSurfaceActive env f w' = .ok s w'' →
      find w''.tm.surfaces (fullName f p) = some s) ∧
    (∀ t w'', getTextureActive env f w' = .ok t w'' →
      find w''.tm.textures (fullName f p) = some t) := by
  have hact : w'.tm.activePalette = p := (post_of_eq_ok (setPalette_post env p w) hset).1
  refine ⟨?_, ?_, ?_, ?_⟩
  · simp [getSurfaceActive, hact]
  · simp [getTextureActive, hact]
  · intro s w'' h
    simp only [getSurfaceActive, hact] at h
    exact (post_of_eq_ok (getSurface_post env f p w') h).1
  · intro t w'' h
    simp only [getTextureActive, hact] at h
    exact (post_of_eq_ok (getTexture_post env f p w') h).1

/-- C7 at the demo manager: after `setPalette "PAL2.COL"` the image `X.IMG` requested
without a palette is cached under `X.IMGPAL2.COL`, not under the former default. -/
theorem c7_active_palette_is_used_witness :
    setPalette demoEnv "PAL2.COL" demoWorld =
      .ok () (setPalette demoEnv "PAL2.COL" demoWorld).world ∧
    getSurfaceActive demoEnv "X.IMG" (setPalette demoEnv "PAL2.COL" demoWorld).world =
      getSurface demoEnv "X.IMG" "PAL2.COL" (setPalette demoEnv "PAL2.COL" demoWorld).world ∧
    find (getSurfaceActive demoEnv "X.IMG"
        (setPalette demoEnv "PAL2.COL" demoWorld).world).world.tm.surfaces "X.IMGPAL2.COL" =
      some ⟨⟨2, 1, [20, 21]⟩⟩ :=
  ⟨by decide,
    (c7_active_palette_is_used demoEnv "PAL2.COL" "X.IMG" demoWorld
      (setPalette demoEnv "PAL2.COL" demoWorld).world (by decide)).1,
    (c7_active_palette_is_used demoEnv "PAL2.COL" "X.IMG" demoWorld
      (setPalette demoEnv "PAL2.COL" demoWorld).world (by decide)).2.2.1
      ⟨⟨2, 1, [20, 21]⟩⟩
      (getSurfaceActive demoEnv "X.IMG" (setPalette demoEnv "PAL2.COL" demoWorld).world).world
      (by decide)⟩

/-- Two misses in a row under different keys append two entries to the surface cache. -/
theorem getSurface_two_misses (env : Env) (f1 p1 f2 p2 : String) (w w1 w2 : World)
    (s1 s2 : Surface) (hne : fullName f1 p1 ≠ fullName f2 p2)
    (hmiss1 : find w.tm.surfaces (fullName f1 p1) = none)
    (hmiss2 : find w.tm.surfaces (fullName f2 p2) = none)
    (hget1 : getSurface env f1 p1 w = .ok s1 w1)
    (hget2 : getSurface env f2 p2 w1 = .ok s2 w2) :
    w2.tm.surfaces = w.tm.surfaces ++ [(fullName f1 p1, s1), (fullName f2 p2, s2)] ∧
    find w2.tm.surfaces (fullName f1 p1) = some s1 ∧
    find w2.tm.surfaces (fullName f2 p2) = some s2 := by
  have h1 := (post_of_eq_ok (getSurface_of_miss env f1 p1 w hmiss1) hget1).1
  have hmiss2' : find w1.tm.surfaces (fullName f2 p2) = none := by
    rw [h1]
    simp [find_append_single, hmiss2, hne]
  have h2 := (post_of_eq_ok (getSurface_of_miss env f2 p2 w1 hmiss2') hget2).1
  have hall : w2.tm.surfaces =
      w.tm.surfaces ++ [(fullName f1 p1, s1), (fullName f2 p2, s2)] := by
    rw [h2, h1]
    simp
  have hf1 : find w1.tm.surfaces (fullName f1 p1) = some s1 := by
    rw [h1, find_append_single]
    simp [hmiss1]
  refine ⟨hall, ?_, ?_⟩
  · rw [h2, find_append_single, hf1]
  · rw [h2, find_append_single]
    simp [hmiss2']

/-- C8: for a palette name `p` other than the sentinel the keys `f ++ sentinel` and
`f ++ p` differ, and from a state where neither is cached, once `getSurface f sentinel` and
`getSurface f p` have both returned, in either order, the surface cache is the old one
followed by exactly two new entries, one under each key, each holding the surface its call
returned. -/
theorem c8_built_in_sentinel_isolation (env : Env) (f p : String) (w : World)
    (hp : p ≠ env.builtInName)
    (hmiss1 : find w.tm.surfaces (fullName f env.builtInName) = none)
    (hmiss2 : find w.tm.surfaces (fullName f p) = none) :
    fullName f env.builtInName ≠ fullName f p ∧
    (∀ w1 w2 s1 s2, getSurface env f env.builtInName w = .ok s1 w1 →
      getSurface env f p w1 = .ok s2 w2 →
      w2.tm.surfaces =
        w.tm.surfaces ++ [(fullName f env.builtInName, s1), (fullName f p, s2)] ∧
      find w2.tm.surfaces (fullName f env.builtInName) = some s1 ∧
      find w2.tm.surfaces (fullName f p) = some s2) ∧
    (∀ w1 w2 s1 s2, getSurface env f p w = .ok s2 w1 →
      getSurface env f env.builtInName w1 = .ok s1 w2 →
      w2.tm.surfaces =
        w.tm.surfaces ++ [(fullName f p, s2), (fullName f env.builtInName, s1)] ∧
      find w2.tm.surfaces (fullName f env.builtInName) = some s1 ∧
      find w2.tm.surfaces (fullName f p) = some s2) := by
  have hne : fullName f env.builtInName ≠ fullName f p := by
    intro h
    exact hp (fullName_left_cancel f env.builtInName p h).symm
  refine ⟨hne, ?_, ?_⟩
  · intro w1 w2 s1 s2 hget1 hget2
    exact getSurface_two_misses env f env.builtInName f p w w1 w2 s1 s2 hne hmiss1 hmiss2
      hget1 hget2
  · intro w1 w2 s1 s2 hget1 hget2
    have h := getSurface_two_misses env f p f env.builtInName w w1 w2 s2 s1 (Ne.symm hne)
      hmiss2 hmiss1 hget1 hget2
    exact ⟨h.1, h.2.2, h.2.1⟩

/-- C8 at the demo manager: `X.IMG` with its built-in palette and with `PAL.COL`. -/
theorem c8_built_in_sentinel_isolation_witness :
    ("PAL.COL" : String) ≠ demoEnv.builtInName ∧
    find demoWorld.tm.surfaces (fullName "X.IMG" demoEnv.builtInName) = none ∧
    find demoWorld.tm.surfaces (fullName "X.IMG" "PAL.COL") = none ∧
    getSurface demoEnv "X.IMG" demoEnv.builtInName demoWorld =
      .ok ⟨⟨2, 1, [30, 31]⟩⟩ (getSurface demoEnv "X.IMG" demoEnv.builtInName demoWorld).world ∧
    (getSurface demoEnv "X.IMG" "PAL.COL"
      (getSurface demoEnv "X.IMG" demoEnv.builtInName demoWorld).world).world.tm.surfaces =
      demoWorld.tm.surfaces ++ [(fullName "X.IMG" demoEnv.builtInName, ⟨⟨2, 1, [30, 31]⟩⟩),
        (fullName "X.IMG" "PAL.COL", ⟨⟨2, 1, [10, 11]⟩⟩)] :=
  ⟨by decide, by decide, by decide, by decide,
    ((c8_built_in_sentinel_isolation demoEnv "X.IMG" "PAL.COL" demoWorld (by decide)
      (by decide) (by decide)).2.1
      (getSurface demoEnv "X.IMG" demoEnv.builtInName demoWorld).world
      (getSurface demoEnv "X.IMG" "PAL.COL"
        (getSurface demoEnv "X.IMG" demoEnv.builtInName demoWorld).world).world
      ⟨⟨2, 1, [30, 31]⟩⟩ ⟨⟨2, 1, [10, 11]⟩⟩ (by decide) (by decide)).1⟩

/-- C9: caching is monotonic.  When a public operation returns, every key that was in the
palette map, the surface cache, the texture cache, the surface-set cache or the
texture-set cache before the call is still there and maps to the same value. -/
theorem c9_caching_is_monotonic (env : Env) (op : Op) (w w' : World)
    (hret : runOp env op w = .ok () w') : Extends w w' :=
  (post_of_eq_ok (sound_runOp env op w) hret).1

/-- C9 at the demo manager, for a preload that decodes two images. -/
theorem c9_caching_is_monotonic_witness :
    runOp demoEnv .preloadSequences demoWorld =
      .ok () (runOp demoEnv .preloadSequences demoWorld).world ∧
    Extends demoWorld (runOp demoEnv .preloadSequences demoWorld).world :=
  ⟨by decide, c9_caching_is_monotonic demoEnv .preloadSequences demoWorld
    (runOp demoEnv .preloadSequences demoWorld).world (by decide)⟩

/-- The ways a guarded palette load can terminate. -/
theorem guarded_load_crash (env : Env) (name : String) (w : World) (e : Fatal) (w' : World)
    (h : (if (find w.tm.palettes name).isNone then loadPalette env name w else .ok () w)
      = .crash e w') :
    e = .unrecognizedPalette name ∨ e = .decodeFailure name := by
  rcases guarded_load_cases env name w with ⟨pal, _, hr⟩ | ⟨_, pal, c, _, hr⟩ |
    ⟨_, e0, cs, hcs, hr⟩
  · rw [hr] at h
    cases h
  · rw [hr] at h
    cases h
  · rw [hr] at h
    have he : e0 = e := by
      cases h
      rfl
    rw [← he]
    rcases hcs with ⟨h1, _⟩ | ⟨h1, _⟩
    · exact Or.inl h1
    · exact Or.inr h1

/-- C10: for a filename whose extension is not `.SET`, a miss in `getSurfaces` or in
`getTextures` never returns a sequence: the call terminates, with the precondition failure
for the built-in palette, with a palette-loading failure, or with "Unrecognized image
list". -/
theorem c10_sets_need_set_extension (env : Env) (f p : String) (w : World)
    (hext : env.getExtension f ≠ ".SET") :
    (find w.tm.surfaceSets (fullName f p) = none →
      ∃ e w', getSurfaces env f p w = .crash e w' ∧
        (e = .builtInForSet ∨ e = .unrecognizedPalette p ∨ e = .decodeFailure p ∨
          e = .unrecognizedImageList f)) ∧
    (find w.tm.textureSets (fullName f p) = none →
      ∃ e w', getTextures env f p w = .crash e w' ∧
        (e = .builtInForSet ∨ e = .unrecognizedPalette p ∨ e = .decodeFailure p ∨
          e = .unrecognizedImageList f)) := by
  have hset : (env.getExtension f == ".SET") = false := by simp [hext]
  constructor
  · intro hmiss
    unfold getSurfaces
    simp only [hmiss]
    cases hb : paletteIsBuiltIn env p with
    | true => exact ⟨_, _, rfl, Or.inl rfl⟩
    | false =>
      simp only [Bool.not_false, check_true, bind_ok]
      cases hr : (if (find w.tm.palettes p).isNone then loadPalette env p w
          else Outcome.ok () w) with
      | crash e w' =>
        rcases guarded_load_crash env p w e w' hr with h | h
        · exact ⟨e, w', rfl, Or.inr (Or.inl h)⟩
        · exact ⟨e, w', rfl, Or.inr (Or.inr (Or.inl h))⟩
      | ok u w2 =>
        have hp := (post_of_eq_ok (guarded_load_post env p w) hr).2.2.2.2.2.1
        obtain ⟨pal, hpal⟩ := Option.isSome_iff_exists.mp hp
        simp only [bind_ok, paletteAt, hpal, hset, Bool.false_eq_true, if_false]
        exact ⟨_, _, rfl, Or.inr (Or.inr (Or.inr rfl))⟩
  · intro hmiss
    unfold getTextures
    simp only [hmiss]
    cases hb : paletteIsBuiltIn env p with
    | true => exact ⟨_, _, rfl, Or.inl rfl⟩
    | false =>
      simp only [Bool.not_false, check_true, bind_ok]
      cases hr : (if (find w.tm.palettes p).isNone then loadPalette env p w
          else Outcome.ok () w) with
      | crash e w' =>
        rcases guarded_load_crash env p w e w' hr with h | h
        · exact ⟨e, w', rfl, Or.inr (Or.inl h)⟩
        · exact ⟨e, w', rfl, Or.inr (Or.inr (Or.inl h))⟩
      | ok u w2 =>
        have hp := (post_of_eq_ok (guarded_load_post env p w) hr).2.2.2.2.2.1
        obtain ⟨pal, hpal⟩ := Option.isSome_iff_exists.mp hp
        simp only [bind_ok, paletteAt, hpal, hset, Bool.false_eq_true, if_false]
        exact ⟨_, _, rfl, Or.inr (Or.inr (Or.inr rfl))⟩

/-- C10 at the demo manager: `X.IMG` is not an image list. -/
theorem c10_sets_need_set_extension_witness :
    demoEnv.getExtension "X.IMG" ≠ ".SET" ∧
    find demoWorld.tm.surfaceSets (fullName "X.IMG" "PAL.COL") = none ∧
    find demoWorld.tm.textureSets (fullName "X.IMG" "PAL.COL") = none ∧
    (∃ e w', getSurfaces demoEnv "X.IMG" "PAL.COL" demoWorld = .crash e w' ∧
      (e = .builtInForSet ∨ e = .unrecognizedPalette "PAL.COL" ∨
        e = .decodeFailure "PAL.COL" ∨ e = .unrecognizedImageList "X.IMG")) ∧
    (∃ e w', getTextures demoEnv "X.IMG" "PAL.COL" demoWorld = .crash e w' ∧
      (e = .builtInForSet ∨ e = .unrecognizedPalette "PAL.COL" ∨
        e = .decodeFailure "PAL.COL" ∨ e = .unrecognizedImageList "X.IMG")) :=
  ⟨by decide, by decide, by decide,
    (c10_sets_need_set_extension demoEnv "X.IMG" "PAL.COL" demoWorld (by decide)).1 (by decide),
    (c10_sets_need_set_extension demoEnv "X.IMG" "PAL.COL" demoWorld (by decide)).2 (by decide)⟩

/-- C11: on a miss in the texture cache, when `getTexture f p` returns, `getSurface f p`
returned in the same state, the texture is the one the renderer creates from exactly that
surface, the world is the one `getSurface` ended in with the single entry `f ++ p -> texture`
appended to the texture cache, and the surface cache holds that surface under `f ++ p`.
When the surface was already cached, the call returns in the old world with only the new
texture entry: the call log is unchanged, so no decoder and no palette loader ran. -/
theorem c11_texture_from_surface (env : Env) (f p : String) (w : World)
    (hmiss : find w.tm.textures (fullName f p) = none) :
    (∀ t w', getTexture env f p w = .ok t w' →
      ∃ s w1, getSurface env f p w = .ok s w1 ∧ t = env.createTextureFromSurface s ∧
        w' = ⟨{ w1.tm with textures := w.tm.textures ++ [(fullName f p, t)] }, w1.calls⟩ ∧
        w1.tm.textures = w.tm.textures ∧
        find w'.tm.textures (fullName f p) = some t ∧
        find w'.tm.surfaces (fullName f p) = some s) ∧
    (∀ s, find w.tm.surfaces (fullName f p) = some s →
      getTexture env f p w =
        .ok (env.createTextureFromSurface s)
          ⟨{ w.tm with textures :=
              w.tm.textures ++ [(fullName f p, env.createTextureFromSurface s)] },
            w.calls⟩) := by
  constructor
  · intro t w' hget
    unfold getTexture at hget
    simp only [hmiss] at hget
    obtain ⟨s, w1, hs, hrest⟩ := (bind_eq_ok _ _ _ _).mp hget
    obtain ⟨hfind, -, htex, -⟩ := post_of_eq_ok (getSurface_post env f p w) hs
    have hm1 : find w1.tm.textures (fullName f p) = none := by rw [htex]; exact hmiss
    simp only [emplace_of_none _ _ _ hm1, Outcome.ok.injEq] at hrest
    obtain ⟨ht, hw⟩ := hrest
    subst ht
    subst hw
    refine ⟨s, w1, hs, rfl, ?_, htex, ?_, hfind⟩
    · simp [htex]
    · simp [find_append_single, hm1]
  · intro s hs
    unfold getTexture
    simp only [hmiss, getSurface_of_hit env f p w s hs, bind_ok, emplace_of_none _ _ _ hmiss]

/-- C11 at the demo manager: the texture of `X.IMG` is made from the surface that
`getSurface` decodes and caches. -/
theorem c11_texture_from_surface_witness :
    find demoWorld.tm.textures (fullName "X.IMG" "PAL.COL") = none ∧
    getTexture demoEnv "X.IMG" "PAL.COL" demoWorld =
      .ok (some ⟨2, 1, [10, 11]⟩) (getTexture demoEnv "X.IMG" "PAL.COL" demoWorld).world ∧
    (∃ s w1, getSurface demoEnv "X.IMG" "PAL.COL" demoWorld = .ok s w1 ∧
      some ⟨2, 1, [10, 11]⟩ = demoEnv.createTextureFromSurface s ∧
      (getTexture demoEnv "X.IMG" "PAL.COL" demoWorld).world =
        ⟨{ w1.tm with textures := demoWorld.tm.textures ++
            [(fullName "X.IMG" "PAL.COL", some ⟨2, 1, [10, 11]⟩)] }, w1.calls⟩ ∧
      w1.tm.textures = demoWorld.tm.textures ∧
      find (getTexture demoEnv "X.IMG" "PAL.COL" demoWorld).world.tm.textures
        (fullName "X.IMG" "PAL.COL") = some (some ⟨2, 1, [10, 11]⟩) ∧
      find (getTexture demoEnv "X.IMG" "PAL.COL" demoWorld).world.tm.surfaces
        (fullName "X.IMG" "PAL.COL") = some s) :=
  ⟨by decide, by decide,
    (c11_texture_from_surface demoEnv "X.IMG" "PAL.COL" demoWorld (by decide)).1
      (some ⟨2, 1, [10, 11]⟩) (getTexture demoEnv "X.IMG" "PAL.COL" demoWorld).world
      (by decide)⟩

/-- A chunk vector built by mapping over the loop indices has one element per index. -/
theorem getElem?_map_range {V : Type} (g : Nat → V) (n i : Nat) (h : i < n) :
    ((List.range n).map g)[i]? = some (g i) := by
  simp [List.getElem?_map, List.getElem?_range h]

/-- A return of `getSurfaces` on a miss is only possible for a `.SET` file and a palette
name other than the sentinel. -/
theorem getSurfaces_ok_conditions (env : Env) (f p : String) (w w' : World)
    (v : List (Option SDLSurface))
    (hmiss : find w.tm.surfaceSets (fullName f p) = none)
    (hget : getSurfaces env f p w = .ok v w') :
    env.getExtension f = ".SET" ∧ p ≠ env.builtInName := by
  unfold getSurfaces at hget
  simp only [hmiss] at hget
  cases hb : paletteIsBuiltIn env p with
  | true => simp [hb] at hget
  | false =>
    simp only [hb, Bool.not_false, check_true, bind_ok] at hget
    obtain ⟨_, w2, hload, hrest⟩ := (bind_eq_ok _ _ _ _).mp hget
    obtain ⟨pal, w4, _, hrest2⟩ := (bind_eq_ok _ _ _ _).mp hrest
    constructor
    · by_cases hext : env.getExtension f = ".SET"
      · exact hext
      · simp [hext] at hrest2
    · intro hp
      simp [paletteIsBuiltIn, hp] at hb

/-- A return of `getTextures` on a miss is only possible for a `.SET` file and a palette
name other than the sentinel. -/
theorem getTextures_ok_conditions (env : Env) (f p : String) (w w' : World)
    (v : List (Option SDLTexture))
    (hmiss : find w.tm.textureSets (fullName f p) = none)
    (hget : getTextures env f p w = .ok v w') :
    env.getExtension f = ".SET" ∧ p ≠ env.builtInName := by
  unfold getTextures at hget
  simp only [hmiss] at hget
  cases hb : paletteIsBuiltIn env p with
  | true => simp [hb] at hget
  | false =>
    simp only [hb, Bool.not_false, check_true, bind_ok] at hget
    obtain ⟨_, w2, hload, hrest⟩ := (bind_eq_ok _ _ _ _).mp hget
    obtain ⟨pal, w4, _, hrest2⟩ := (bind_eq_ok _ _ _ _).mp hrest
    constructor
    · by_cases hext : env.getExtension f = ".SET"
      · exact hext
      · simp [hext] at hrest2
    · intro hp
      simp [paletteIsBuiltIn, hp] at hb

/-- C12: when `getSurfaces` returns on a miss, the file has the `.SET` extension, the
palette name is not the sentinel, and the SET decoder was run on the file with the palette
stored under that name; the sequence returned is the one cached under `f ++ p`, its length
is the chunk count the decoder reports, and for every index below the count its element is
the conversion of the pixels of that chunk at the fixed chunk size.  For `getTextures` the
element at each index is the chunk-sized texture updated with the pixels of that chunk. -/
theorem c12_one_element_per_chunk (env : Env) (f p : String) (w : World) :
    (∀ v w', find w.tm.surfaceSets (fullName f p) = none →
      getSurfaces env f p w = .ok v w' →
      env.getExtension f = ".SET" ∧ p ≠ env.builtInName ∧
      ∃ pal setFile, find w'.tm.palettes p = some pal ∧ env.setFile f pal = some setFile ∧
        find w'.tm.surfaceSets (fullName f p) = some v ∧
        v.length = setFile.count.toNat ∧
        (0 ≤ setFile.count → (v.length : Int) = setFile.count) ∧
        ∀ i, i < setFile.count.toNat →
          v[i]? = some (env.convertSurface
            ⟨env.chunkWidth, env.chunkHeight, setFile.pixels i⟩)) ∧
    (∀ v w', find w.tm.textureSets (fullName f p) = none →
      getTextures env f p w = .ok v w' →
      env.getExtension f = ".SET" ∧ p ≠ env.builtInName ∧
      ∃ pal setFile, find w'.tm.palettes p = some pal ∧ env.setFile f pal = some setFile ∧
        find w'.tm.textureSets (fullName f p) = some v ∧
        v.length = setFile.count.toNat ∧
        (0 ≤ setFile.count → (v.length : Int) = setFile.count) ∧
        ∀ i, i < setFile.count.toNat →
          v[i]? = some (updateTexture (env.createTexture env.chunkWidth env.chunkHeight)
            (setFile.pixels i))) := by
  constructor
  · intro v w' hmiss hget
    obtain ⟨hext, hp⟩ := getSurfaces_ok_conditions env f p w w' v hmiss hget
    obtain ⟨hfind, ⟨pal, setFile, hpal, hsf, hv⟩, -⟩ :=
      post_of_eq_ok (getSurfaces_of_miss env f p w hmiss) hget
    have hlen : v.length = setFile.count.toNat := by simp [hv]
    refine ⟨hext, hp, pal, setFile, hpal, hsf, hfind, hlen, ?_, ?_⟩
    · intro h0
      rw [hlen]
      exact Int.toNat_of_nonneg h0
    · intro i hi
      rw [hv]
      exact getElem?_map_range _ _ i hi
  · intro v w' hmiss hget
    obtain ⟨hext, hp⟩ := getTextures_ok_conditions env f p w w' v hmiss hget
    obtain ⟨hfind, ⟨pal, setFile, hpal, hsf, hv⟩, -⟩ :=
      post_of_eq_ok (getTextures_of_miss env f p w hmiss) hget
    have hlen : v.length = setFile.count.toNat := by simp [hv]
    refine ⟨hext, hp, pal, setFile, hpal, hsf, hfind, hlen, ?_, ?_⟩
    · intro h0
      rw [hlen]
      exact Int.toNat_of_nonneg h0
    · intro i hi
      rw [hv]
      exact getElem?_map_range _ _ i hi

/-- C12 at the demo manager: `Z.SET` has four chunks, and the four converted chunks are
returned and cached in chunk order. -/
theorem c12_one_element_per_chunk_witness :
    find demoWorld.tm.surfaceSets (fullName "Z.SET" "PAL.COL") = none ∧
    getSurfaces demoEnv "Z.SET" "PAL.COL" demoWorld =
      .ok [some ⟨64, 64, [0, 10, 11]⟩, some ⟨64, 64, [1, 10, 11]⟩,
          some ⟨64, 64, [2, 10, 11]⟩, some ⟨64, 64, [3, 10, 11]⟩]
        (getSurfaces demoEnv "Z.SET" "PAL.COL" demoWorld).world ∧
    (demoEnv.getExtension "Z.SET" = ".SET" ∧ ("PAL.COL" : String) ≠ demoEnv.builtInName ∧
      ∃ pal setFile,
        find (getSurfaces demoEnv "Z.SET" "PAL.COL" demoWorld).world.tm.palettes "PAL.COL" =
          some pal ∧
        demoEnv.setFile "Z.SET" pal = some setFile ∧
        find (getSurfaces demoEnv "Z.SET" "PAL.COL" demoWorld).world.tm.surfaceSets
            (fullName "Z.SET" "PAL.COL") =
          some [some ⟨64, 64, [0, 10, 11]⟩, some ⟨64, 64, [1, 10, 11]⟩,
            some ⟨64, 64, [2, 10, 11]⟩, some ⟨64, 64, [3, 10, 11]⟩] ∧
        [some (⟨64, 64, [0, 10, 11]⟩ : SDLSurface), some ⟨64, 64, [1, 10, 11]⟩,
            some ⟨64, 64, [2, 10, 11]⟩, some ⟨64, 64, [3, 10, 11]⟩].length =
          setFile.count.toNat ∧
        (0 ≤ setFile.count →
          (([some (⟨64, 64, [0, 10, 11]⟩ : SDLSurface), some ⟨64, 64, [1, 10, 11]⟩,
            some ⟨64, 64, [2, 10, 11]⟩, some ⟨64, 64, [3, 10, 11]⟩].length : Nat) : Int) =
            setFile.count) ∧
        ∀ i, i < setFile.count.toNat →
          [some (⟨64, 64, [0, 10, 11]⟩ : SDLSurface), some ⟨64, 64, [1, 10, 11]⟩,
            some ⟨64, 64, [2, 10, 11]⟩, some ⟨64, 64, [3, 10, 11]⟩][i]? =
            some (demoEnv.convertSurface
              ⟨demoEnv.chunkWidth, demoEnv.chunkHeight, setFile.pixels i⟩)) :=
  ⟨by decide, by decide,
    (c12_one_element_per_chunk demoEnv "Z.SET" "PAL.COL" demoWorld).1 _
      (getSurfaces demoEnv "Z.SET" "PAL.COL" demoWorld).world (by decide) (by decide)⟩

/-- The guarded palette load with the kinds of its terminations made explicit. -/
theorem guarded_load_post_kinds (env : Env) (name : String) (w : World) :
    (if (find w.tm.palettes name).isNone then loadPalette env name w
      else .ok () w).Post
      (fun _ w1 => w1.tm.surfaces = w.tm.surfaces ∧ w1.tm.textures = w.tm.textures ∧
        w1.tm.surfaceSets = w.tm.surfaceSets ∧ w1.tm.textureSets = w.tm.textureSets ∧
        w1.tm.activePalette = w.tm.activePalette ∧
        (find w1.tm.palettes name).isSome = true ∧
        SubMap w.tm.palettes w1.tm.palettes ∧
        (LoadedOnce w.tm.palettes w.calls → LoadedOnce w1.tm.palettes w1.calls))
      (fun e _ => e = .unrecognizedPalette name ∨ e = .decodeFailure name) := by
  cases hr : (if (find w.tm.palettes name).isNone then loadPalette env name w
      else Outcome.ok () w) with
  | ok u w1 => exact post_of_eq_ok (guarded_load_post env name w) hr
  | crash e w1 => exact guarded_load_crash env name w e w1 hr

/-- The state in which `getSurfaces` raises "Unrecognized image list": the palette is in
the palette map and the empty vector was appended to the surface-set cache. -/
theorem getSurfaces_crash_state (env : Env) (f p : String) (w : World)
    (hmiss : find w.tm.surfaceSets (fullName f p) = none) :
    (getSurfaces env f p w).Post (fun _ _ => True)
      (fun e w' => e = .unrecognizedImageList f →
        p ≠ env.builtInName ∧ env.getExtension f ≠ ".SET" ∧
        (find w'.tm.palettes p).isSome = true ∧ SubMap w.tm.palettes w'.tm.palettes ∧
        w'.tm.surfaceSets = w.tm.surfaceSets ++ [(fullName f p, [])] ∧
        w'.tm.surfaces = w.tm.surfaces ∧ w'.tm.textures = w.tm.textures ∧
        w'.tm.textureSets = w.tm.textureSets ∧
        w'.tm.activePalette = w.tm.activePalette) := by
  unfold getSurfaces
  simp only [hmiss]
  cases hb : paletteIsBuiltIn env p with
  | true =>
    simp only [Bool.not_true, check_false, bind_crash, Outcome.Post]
    intro h
    cases h
  | false =>
    have hp : p ≠ env.builtInName := by
      intro h
      simp [paletteIsBuiltIn, h] at hb
    simp only [Bool.not_false, check_true, bind_ok]
    refine post_bind (post_mono (guarded_load_post_kinds env p w) (fun _ _ h => h) ?_) ?_
    · intro e w' hk h
      rcases hk with hk | hk <;> rw [hk] at h <;> cases h
    · rintro _ w2 ⟨h1, h2, h3, h4, h5, hpal, hsub, -⟩
      have hm2 : find w2.tm.surfaceSets (fullName f p) = none := by rw [h3]; exact hmiss
      obtain ⟨pal, hpal'⟩ := Option.isSome_iff_exists.mp hpal
      simp only [emplace_of_none _ _ _ hm2, paletteAt, hpal', bind_ok]
      by_cases hext : (env.getExtension f == ".SET") = true
      · simp only [hext, if_true, World.log]
        cases env.setFile f pal with
        | none =>
          simp only [Outcome.Post]
          intro h
          cases h
        | some setFile => simp only [Outcome.Post]
      · simp only [hext, Bool.false_eq_true, if_false, Outcome.Post]
        intro _
        refine ⟨hp, ?_, hpal, hsub, by rw [h3], h1, h2, h4, h5⟩
        intro h
        simp [h] at hext

/-- The state in which `getTextures` raises "Unrecognized image list": the palette is in
the palette map and the empty vector was appended to the texture-set cache. -/
theorem getTextures_crash_state (env : Env) (f p : String) (w : World)
    (hmiss : find w.tm.textureSets (fullName f p) = none) :
    (getTextures env f p w).Post (fun _ _ => True)
      (fun e w' => e = .unrecognizedImageList f →
        p ≠ env.builtInName ∧ env.getExtension f ≠ ".SET" ∧
        (find w'.tm.palettes p).isSome = true ∧ SubMap w.tm.palettes w'.tm.palettes ∧
        w'.tm.textureSets = w.tm.textureSets ++ [(fullName f p, [])] ∧
        w'.tm.surfaces = w.tm.surfaces ∧ w'.tm.textures = w.tm.textures ∧
        w'.tm.surfaceSets = w.tm.surfaceSets ∧
        w'.tm.activePalette = w.tm.activePalette) := by
  unfold getTextures
  simp only [hmiss]
  cases hb : paletteIsBuiltIn env p with
  | true =>
    simp only [Bool.not_true, check_false, bind_crash, Outcome.Post]
    intro h
    cases h
  | false =>
    have hp : p ≠ env.builtInName := by
      intro h
      simp [paletteIsBuiltIn, h] at hb
    simp only [Bool.not_false, check_true, bind_ok]
    refine post_bind (post_mono (guarded_load_post_kinds env p w) (fun _ _ h => h) ?_) ?_
    · intro e w' hk h
      rcases hk with hk | hk <;> rw [hk] at h <;> cases h
    · rintro _ w2 ⟨h1, h2, h3, h4, h5, hpal, hsub, -⟩
      have hm2 : find w2.tm.textureSets (fullName f p) = none := by rw [h4]; exact hmiss
      obtain ⟨pal, hpal'⟩ := Option.isSome_iff_exists.mp hpal
      simp only [emplace_of_none _ _ _ hm2, paletteAt, hpal', bind_ok]
      by_cases hext : (env.getExtension f == ".SET") = true
      · simp only [hext, if_true, World.log]
        cases env.setFile f pal with
        | none =>
          simp only [Outcome.Post]
          intro h
          cases h
        | some setFile => simp only [Outcome.Post]
      · simp only [hext, Bool.false_eq_true, if_false, Outcome.Post]
        intro _
        refine ⟨hp, ?_, hpal, hsub, by rw [h4], h1, h2, h3, h5⟩
        intro h
        simp [h] at hext

/-- When the palette is loaded already or loads now, a miss of `getSurfaces` on a file
that is no `.SET` file raises "Unrecognized image list". -/
theorem getSurfaces_raises (env : Env) (f p : String) (w : World)
    (hmiss : find w.tm.surfaceSets (fullName f p) = none)
    (hp : p ≠ env.builtInName) (hext : env.getExtension f ≠ ".SET")
    (hload : (find w.tm.palettes p).isSome = true ∨ ∃ w1, loadPalette env p w = .ok () w1) :
    ∃ w', getSurfaces env f p w = .crash (.unrecognizedImageList f) w' := by
  have hb : paletteIsBuiltIn env p = false := by simp [paletteIsBuiltIn, hp]
  have hset : (env.getExtension f == ".SET") = false := by simp [hext]
  have hr : ∃ w1, (if (find w.tm.palettes p).isNone then loadPalette env p w
      else Outcome.ok () w) = .ok () w1 := by
    cases hf : find w.tm.palettes p with
    | some pal => exact ⟨w, by simp⟩
    | none =>
      rcases hload with h | ⟨w1, h⟩
      · simp [hf] at h
      · exact ⟨w1, by simp [h]⟩
  obtain ⟨w1, hr⟩ := hr
  have hpal := (post_of_eq_ok (guarded_load_post env p w) hr).2.2.2.2.2.1
  obtain ⟨pal, hpal'⟩ := Option.isSome_iff_exists.mp hpal
  unfold getSurfaces
  simp only [hmiss, hb, Bool.not_false, check_true, bind_ok, hr, paletteAt, hpal', hset,
    Bool.false_eq_true, if_false]
  exact ⟨_, rfl⟩

/-- When the palette is loaded already or loads now, a miss of `getTextures` on a file
that is no `.SET` file raises "Unrecognized image list". -/
theorem getTextures_raises (env : Env) (f p : String) (w : World)
    (hmiss : find w.tm.textureSets (fullName f p) = none)
    (hp : p ≠ env.builtInName) (hext : env.getExtension f ≠ ".SET")
    (hload : (find w.tm.palettes p).isSome = true ∨ ∃ w1, loadPalette env p w = .ok () w1) :
    ∃ w', getTextures env f p w = .crash (.unrecognizedImageList f) w' := by
  have hb : paletteIsBuiltIn env p = false := by simp [paletteIsBuiltIn, hp]
  have hset : (env.getExtension f == ".SET") = false := by simp [hext]
  have hr : ∃ w1, (if (find w.tm.palettes p).isNone then loadPalette env p w
      else Outcome.ok () w) = .ok () w1 := by
    cases hf : find w.tm.palettes p with
    | some pal => exact ⟨w, by simp⟩
    | none =>
      rcases hload with h | ⟨w1, h⟩
      · simp [hf] at h
      · exact ⟨w1, by simp [h]⟩
  obtain ⟨w1, hr⟩ := hr
  have hpal := (post_of_eq_ok (guarded_load_post env p w) hr).2.2.2.2.2.1
  obtain ⟨pal, hpal'⟩ := Option.isSome_iff_exists.mp hpal
  unfold getTextures
  simp only [hmiss, hb, Bool.not_false, check_true, bind_ok, hr, paletteAt, hpal', hset,
    Bool.false_eq_true, if_false]
  exact ⟨_, rfl⟩

/-- C13: on a miss with a palette name other than the sentinel whose palette is loaded or
loads now, and a file that is no `.SET` file, `getSurfaces` and `getTextures` raise
"Unrecognized image list"; and whenever they raise it on a miss, the state at the point of
failure has the palette in the palette map and the empty vector appended to the set cache
under `f ++ p`, so it differs from the state before the call, and the same call repeated
in that state is a cache hit returning the empty sequence. -/
theorem c13_failure_leaves_empty_entry (env : Env) (f p : String) (w : World) :
    (find w.tm.surfaceSets (fullName f p) = none →
      (p ≠ env.builtInName → env.getExtension f ≠ ".SET" →
        ((find w.tm.palettes p).isSome = true ∨ ∃ w1, loadPalette env p w = .ok () w1) →
        ∃ w', getSurfaces env f p w = .crash (.unrecognizedImageList f) w') ∧
      (∀ w', getSurfaces env f p w = .crash (.unrecognizedImageList f) w' →
        (find w'.tm.palettes p).isSome = true ∧
        w'.tm.surfaceSets = w.tm.surfaceSets ++ [(fullName f p, [])] ∧
        w'.tm ≠ w.tm ∧
        getSurfaces env f p w' = .ok [] w')) ∧
    (find w.tm.textureSets (fullName f p) = none →
      (p ≠ env.builtInName → env.getExtension f ≠ ".SET" →
        ((find w.tm.palettes p).isSome = true ∨ ∃ w1, loadPalette env p w = .ok () w1) →
        ∃ w', getTextures env f p w = .crash (.unrecognizedImageList f) w') ∧
      (∀ w', getTextures env f p w = .crash (.unrecognizedImageList f) w' →
        (find w'.tm.palettes p).isSome = true ∧
        w'.tm.textureSets = w.tm.textureSets ++ [(fullName f p, [])] ∧
        w'.tm ≠ w.tm ∧
        getTextures env f p w' = .ok [] w')) := by
  constructor
  · intro hmiss
    refine ⟨getSurfaces_raises env f p w hmiss, ?_⟩
    intro w' hcrash
    obtain ⟨-, -, hpal, -, hsets, -⟩ :=
      post_of_eq_crash (getSurfaces_crash_state env f p w hmiss) hcrash rfl
    refine ⟨hpal, hsets, ?_, ?_⟩
    · intro h
      have hlen := congrArg List.length hsets
      rw [h] at hlen
      simp at hlen
    · apply getSurfaces_of_hit
      rw [hsets, find_append_single]
      simp [hmiss]
  · intro hmiss
    refine ⟨getTextures_raises env f p w hmiss, ?_⟩
    intro w' hcrash
    obtain ⟨-, -, hpal, -, hsets, -⟩ :=
      post_of_eq_crash (getTextures_crash_state env f p w hmiss) hcrash rfl
    refine ⟨hpal, hsets, ?_, ?_⟩
    · intro h
      have hlen := congrArg List.length hsets
      rw [h] at hlen
      simp at hlen
    · apply getTextures_of_hit
      rw [hsets, find_append_single]
      simp [hmiss]

/-- C13 at the demo manager: `X.IMG` requested as an image list with `PAL2.COL`, which is
loaded by the call before the failure is raised. -/
theorem c13_failure_leaves_empty_entry_witness :
    find demoWorld.tm.surfaceSets (fullName "X.IMG" "PAL2.COL") = none ∧
    getSurfaces demoEnv "X.IMG" "PAL2.COL" demoWorld =
      .crash (.unrecognizedImageList "X.IMG")
        ⟨{ demoWorld.tm with
            palettes := [("PAL.COL", [10, 11]), ("PAL2.COL", [20, 21])]
            surfaceSets := [("X.IMGPAL2.COL", [])] },
          demoWorld.calls ++ [.loadPalette "PAL2.COL", .colToPalette "PAL2.COL"]⟩ ∧
    getSurfaces demoEnv "X.IMG" "PAL2.COL"
        ⟨{ demoWorld.tm with
            palettes := [("PAL.COL", [10, 11]), ("PAL2.COL", [20, 21])]
            surfaceSets := [("X.IMGPAL2.COL", [])] },
          demoWorld.calls ++ [.loadPalette "PAL2.COL", .colToPalette "PAL2.COL"]⟩ =
      .ok []
        ⟨{ demoWorld.tm with
            palettes := [("PAL.COL", [10, 11]), ("PAL2.COL", [20, 21])]
            surfaceSets := [("X.IMGPAL2.COL", [])] },
          demoWorld.calls ++ [.loadPalette "PAL2.COL", .colToPalette "PAL2.COL"]⟩ :=
  ⟨by decide, by decide,
    (((c13_failure_leaves_empty_entry demoEnv "X.IMG" "PAL2.COL" demoWorld).1
      (by decide)).2 _ (by decide)).2.2.2⟩

/-- C14: the checked lookup `palettes.at(paletteName)` never fails.  Whenever the guarded
palette load that precedes it returns, the name is a key of the palette map and the lookup
returns the stored palette; hence, from every manager state, none of `getSurface`,
`getTexture`, `getSurfaces`, `getTextures` nor any other public operation terminates with
the out-of-range failure of the lookup. -/
theorem c14_checked_lookups_never_fail (env : Env) (f p : String) (w : World) :
    (∀ w1, (if (find w.tm.palettes p).isNone then loadPalette env p w else .ok () w)
        = .ok () w1 →
      ∀ w2, w2.tm.palettes = w1.tm.palettes → ∃ pal, paletteAt p w2 = .ok pal w2) ∧
    (∀ w', getSurface env f p w ≠ .crash .outOfRange w') ∧
    (∀ w', getTexture env f p w ≠ .crash .outOfRange w') ∧
    (∀ w', getSurfaces env f p w ≠ .crash .outOfRange w') ∧
    (∀ w', getTextures env f p w ≠ .crash .outOfRange w') ∧
    (∀ op w', runOp env op w ≠ .crash .outOfRange w') := by
  refine ⟨?_, ?_, ?_, ?_, ?_, ?_⟩
  · intro w1 hr w2 hw2
    have hpal := (post_of_eq_ok (guarded_load_post env p w) hr).2.2.2.2.2.1
    obtain ⟨pal, hpal'⟩ := Option.isSome_iff_exists.mp hpal
    exact ⟨pal, by simp [paletteAt, hw2, hpal']⟩
  · intro w' h
    exact (post_of_eq_crash (sound_getSurface env f p w) h).2.1 rfl
  · intro w' h
    exact (post_of_eq_crash (sound_getTexture env f p w) h).2.1 rfl
  · intro w' h
    exact (post_of_eq_crash (sound_getSurfaces env f p w) h).2.1 rfl
  · intro w' h
    exact (post_of_eq_crash (sound_getTextures env f p w) h).2.1 rfl
  · intro op w' h
    exact (post_of_eq_crash (sound_runOp env op w) h).2.1 rfl

/-- C14 at the demo manager: loading `PAL2.COL` makes the checked lookup return it. -/
theorem c14_checked_lookups_never_fail_witness :
    paletteAt "PAL2.COL"
        ⟨{ demoWorld.tm with palettes := [("PAL.COL", [10, 11]), ("PAL2.COL", [20, 21])] },
          demoWorld.calls ++ [.loadPalette "PAL2.COL", .colToPalette "PAL2.COL"]⟩ =
      .ok [20, 21]
        ⟨{ demoWorld.tm with palettes := [("PAL.COL", [10, 11]), ("PAL2.COL", [20, 21])] },
          demoWorld.calls ++ [.loadPalette "PAL2.COL", .colToPalette "PAL2.COL"]⟩ ∧
    (∃ pal, paletteAt "PAL2.COL"
        ⟨{ demoWorld.tm with palettes := [("PAL.COL", [10, 11]), ("PAL2.COL", [20, 21])] },
          demoWorld.calls ++ [.loadPalette "PAL2.COL", .colToPalette "PAL2.COL"]⟩ =
      .ok pal
        ⟨{ demoWorld.tm with palettes := [("PAL.COL", [10, 11]), ("PAL2.COL", [20, 21])] },
          demoWorld.calls ++ [.loadPalette "PAL2.COL", .colToPalette "PAL2.COL"]⟩) :=
  ⟨by decide,
    (c14_checked_lookups_never_fail demoEnv "X.IMG" "PAL2.COL" demoWorld).1
      ⟨{ demoWorld.tm with palettes := [("PAL.COL", [10, 11]), ("PAL2.COL", [20, 21])] },
        demoWorld.calls ++ [.loadPalette "PAL2.COL", .colToPalette "PAL2.COL"]⟩ (by decide)
      ⟨{ demoWorld.tm with palettes := [("PAL.COL", [10, 11]), ("PAL2.COL", [20, 21])] },
        demoWorld.calls ++ [.loadPalette "PAL2.COL", .colToPalette "PAL2.COL"]⟩ rfl⟩

end TextureManager
